import Mathlib

/-!
# TON transfer tool: a shallow embedding of `src/ton-transfer.js`

The file embeds the two entry points of the module, `transferTon` (interactive) and
`transferTonDirect` (parameterised), as functions over an explicit world:

* everything imported from `@ton/ton`, `@ton/core`, `@ton/crypto`, `@orbs-network/ton-access`
  and `readline` is a field of `Env` (an external collaborator that returns a value or throws
  one: an error with a message, a value without a message, or `null`/`undefined`);
* the calls made to those collaborators and the console output are recorded, in order, in the
  trace of the `World`;
* `async`/`await` is sequential here (one flow, no interleaving), so it is plain sequencing;
* `bigint` values are `Int`, sequence numbers are `Nat`;
* a loop takes a fuel argument; running out of fuel is the outcome `pending` (the JavaScript
  flow is still inside the loop), never a result of the program.

In the source text the binary operator is missing at four places
(`network.toLowerCase()  'mainnet'`, `balance  0n`, `currentSeqno  seqno`,
`require.main  module`).  The same token was lost at each of them, and strict equality is the
only operator that fits all four, so they are read as `===`.
-/

namespace TonTransfer

/-! ## Data -/

/-- Key pair returned by `mnemonicToPrivateKey`. -/
structure KeyPair where
  publicKey : List Nat
  secretKey : List Nat
deriving DecidableEq, Repr

/-- Value of `Address.parse` and of `wallet.address`. -/
structure Address where
  workchain : Int
  hash : List Nat
deriving DecidableEq, Repr

/-- One call on a `beginCell()` builder. -/
inductive StoreOp where
  | storeUint (value bits : Nat)
  | storeStringTail (text : String)
deriving DecidableEq, Repr

/-- Cell made by `beginCell(). ... .endCell()`: the stores applied, in order. -/
structure Cell where
  stores : List StoreOp
deriving DecidableEq, Repr

/-- Argument of `internal({ to, value, body, bounce })`; `dest` is the field `to`. -/
structure Message where
  dest : Address
  value : Int
  body : Option Cell
  bounce : Bool
deriving DecidableEq, Repr

/-- Argument of `walletContract.createTransfer`. -/
structure TransferArgs where
  seqno : Nat
  secretKey : List Nat
  messages : List Message
deriving DecidableEq, Repr

/-- Cell returned by `createTransfer`, known by `transfer.hash().toString('hex')`. -/
structure Transfer where
  hashHex : String
deriving DecidableEq, Repr

/-- The object `client.open(WalletContractV4.create({ workchain: 0, publicKey }))`. -/
structure WalletContract where
  endpoint : String
  workchain : Int
  publicKey : List Nat
deriving DecidableEq, Repr

/-- JavaScript number, as far as `isNaN` and `<= 0` look at it. -/
inductive JsNumber where
  | nan
  | finite (q : ℚ)
  | posInfinity
  | negInfinity
deriving DecidableEq

/-- The global `isNaN` on a number. -/
def JsNumber.isNaN : JsNumber → Bool
  | JsNumber.nan => true
  | _ => false

/-- The comparison `amount <= 0` (false on `NaN`). -/
def JsNumber.leZero : JsNumber → Bool
  | JsNumber.nan => false
  | JsNumber.finite q => decide (q ≤ 0)
  | JsNumber.posInfinity => false
  | JsNumber.negInfinity => true

/-- Third argument of `transferTonDirect`: a number or a string. -/
inductive Amount where
  | number (n : JsNumber)
  | text (s : String)

/-- Record returned by `transferTonDirect`. -/
structure TransferResult where
  success : Bool
  message : Option String
  txHash : Option String
  error : Option String
deriving DecidableEq, Repr

/-- A value thrown by a collaborator, as far as a `catch` of the source looks at it: the source
only reads its property `message`. -/
inductive Raised where
  /-- An object whose `message` is the string given, such as an `Error`. -/
  | error (message : String)
  /-- A value other than `null` and `undefined` that has no `message`: the read gives
  `undefined`. -/
  | noMessage
  /-- The value `null` or `undefined`: the read of `message` raises a `TypeError`. -/
  | nullish
deriving DecidableEq, Repr

/-- A value caught by a `catch`, told apart by the place that raised it. -/
inductive Thrown where
  /-- Line 52: `throw new Error('Mnemonic must contain exactly 24 words')`. -/
  | mnemonicWordCount
  /-- Lines 57 and 211: `throw new Error('Invalid mnemonic phrase')`. -/
  | invalidMnemonic
  /-- Line 77: `throw new Error('Sender wallet has no TON to transfer')`. -/
  | noTon
  /-- Line 234: the insufficient balance error; `available` is `fromNano(balance)`. -/
  | insufficientBalance (available : String)
  /-- A value thrown inside a collaborator. -/
  | external (raised : Raised)
  /-- Lines 190 and 271: the `TypeError` of the read `error.message` on `null` or
  `undefined`, raised inside the `catch`. -/
  | typeError
deriving DecidableEq, Repr

/-- The read `error.message`: `none` when the read itself raises (the value caught is `null` or
`undefined`), else the value read, where `some none` is `undefined`. -/
def Thrown.message : Thrown → Option (Option String)
  | Thrown.mnemonicWordCount => some (some "Mnemonic must contain exactly 24 words")
  | Thrown.invalidMnemonic => some (some "Invalid mnemonic phrase")
  | Thrown.noTon => some (some "Sender wallet has no TON to transfer")
  | Thrown.insufficientBalance available =>
      some (some ("Insufficient balance. Available: " ++ available ++ " TON"))
  | Thrown.external (Raised.error message) => some (some message)
  | Thrown.external Raised.noMessage => some none
  | Thrown.external Raised.nullish => none
  | Thrown.typeError => some (some "Cannot read properties of null (reading \x27message\x27)")

/-- What the flow does to the outside, in order. -/
inductive Ev where
  | log (text : String)
  | logError (text : String)
  | question (prompt answer : String)
  | rlClose
  | getHttpEndpoint (network : String)
  | mnemonicValidate (words : List String)
  | mnemonicToPrivateKey (words : List String)
  | addressParse (text : String)
  | toNano (text : String)
  | getBalance (wallet : WalletContract)
  | getSeqno (wallet : WalletContract)
  | createTransfer (wallet : WalletContract) (args : TransferArgs)
  | send (wallet : WalletContract) (transfer : Transfer)
  | sleep (ms : Nat)
deriving DecidableEq, Repr

/-- The external collaborators.  A collaborator either returns a value or throws one.  The user and the ledger are asked several times in one run, so their answers are
indexed by the number of earlier calls. -/
structure Env where
  /-- The line typed by the user at the `k`-th `rl.question`. -/
  answers : Nat → String
  /-- Function `getHttpEndpoint({ network })` of `@orbs-network/ton-access`. -/
  getHttpEndpoint : String → Except Raised String
  /-- Function `mnemonicValidate` of `@ton/crypto`. -/
  mnemonicValidate : List String → Except Raised Bool
  /-- Function `mnemonicToPrivateKey` of `@ton/crypto`. -/
  mnemonicToPrivateKey : List String → Except Raised KeyPair
  /-- Function `Address.parse` of `@ton/core`. -/
  addressParse : String → Except Raised Address
  /-- Method `toString()` of an address. -/
  addressToString : Address → String
  /-- The address `wallet.address` of the opened wallet. -/
  walletAddress : WalletContract → Address
  /-- Function `toNano` of `@ton/ton`, on a string. -/
  toNano : String → Except Raised Int
  /-- Function `fromNano` of `@ton/ton`. -/
  fromNano : Int → String
  /-- The global `parseFloat`. -/
  parseFloat : String → JsNumber
  /-- Method `toString()` of a number. -/
  numberToString : JsNumber → String
  /-- The `k`-th call of `walletContract.getBalance()`. -/
  getBalance : WalletContract → Nat → Except Raised Int
  /-- The `k`-th call of `walletContract.getSeqno()`. -/
  getSeqno : WalletContract → Nat → Except Raised Nat
  /-- Method `walletContract.createTransfer`. -/
  createTransfer : WalletContract → TransferArgs → Except Raised Transfer
  /-- Method `walletContract.send`. -/
  send : WalletContract → Transfer → Except Raised Unit

/-- The world a flow runs in: the trace so far and how often the user and the ledger have been
asked. -/
structure World where
  trace : List Ev
  asked : Nat
  balanceCalls : Nat
  seqnoCalls : Nat
deriving DecidableEq, Repr

/-- The world before the entry point is called. -/
def World.init : World :=
  { trace := [], asked := 0, balanceCalls := 0, seqnoCalls := 0 }

/-- How a piece of the flow ends: with a value, with an error raised, or still running when the
fuel of a loop was used up. -/
inductive Outcome (α : Type) where
  | ret (a : α)
  | threw (e : Thrown)
  | pending
deriving DecidableEq, Repr

/-- A piece of the flow: from a world to an outcome and the world after it. -/
def Flow (α : Type) : Type := World → Outcome α × World

/-- A flow that ends with the value `a`. -/
def Flow.pure {α : Type} (a : α) : Flow α := fun w => (Outcome.ret a, w)

/-- Sequencing: the second piece runs only when the first one ended with a value. -/
def Flow.bind {α β : Type} (x : Flow α) (f : α → Flow β) : Flow β := fun w =>
  match x w with
  | (Outcome.ret a, w1) => f a w1
  | (Outcome.threw e, w1) => (Outcome.threw e, w1)
  | (Outcome.pending, w1) => (Outcome.pending, w1)

instance : Monad Flow where
  pure := Flow.pure
  bind := Flow.bind

/-- Statement `throw e`. -/
def raise {α : Type} (e : Thrown) : Flow α := fun w => (Outcome.threw e, w)

/-- Record one event. -/
def emit (e : Ev) : Flow Unit := fun w =>
  (Outcome.ret (), { w with trace := w.trace ++ [e] })

/-- Call a collaborator: the call is recorded, then it returns or raises. -/
def call {α : Type} (e : Ev) (r : Except Raised α) : Flow α := fun w =>
  match r with
  | Except.ok a => (Outcome.ret a, { w with trace := w.trace ++ [e] })
  | Except.error raised =>
    (Outcome.threw (Thrown.external raised), { w with trace := w.trace ++ [e] })

/-- Block `try { x } catch (error) { h error }`. -/
def tryCatch {α : Type} (x : Flow α) (h : Thrown → Flow α) : Flow α := fun w =>
  match x w with
  | (Outcome.threw e, w1) => h e w1
  | r => r

/-- Block `try { x } finally { f }`, for an `f` that does not raise. -/
def tryFinally {α : Type} (x : Flow α) (f : Flow Unit) : Flow α := fun w =>
  match x w with
  | (Outcome.pending, w1) => (Outcome.pending, w1)
  | (r, w1) => (r, (f w1).2)

/-- Expression `error.message` inside a `catch` (lines 190 and 271): the message, `none` being
`undefined`, or the `TypeError` of the read on `null` or `undefined`. -/
def readMessage (error : Thrown) : Flow (Option String) :=
  match error.message with
  | some message => pure message
  | none => raise Thrown.typeError

/-! ## Strings -/

/-- Method `String.prototype.toLowerCase`, on the ASCII letters.  The source only compares the
result with `'mainnet'`, `'yes'` and `'y'`; no character outside ASCII lower-cases to one of
their letters. -/
def toLowerCase (s : String) : String := String.mk (s.data.map Char.toLower)

/-- White space and line terminators removed by `String.prototype.trim`. -/
def isJsWhiteSpace (c : Char) : Bool :=
  let n := c.toNat
  (9 ≤ n && n ≤ 13) || n == 32 || n == 160 || n == 5760 || (8192 ≤ n && n ≤ 8202) ||
    n == 8232 || n == 8233 || n == 8239 || n == 8287 || n == 12288 || n == 65279

/-- Method `String.prototype.trim`. -/
def trim (s : String) : String :=
  String.mk (((s.data.dropWhile isJsWhiteSpace).reverse.dropWhile isJsWhiteSpace).reverse)

/-- The pieces of a character list between its spaces. -/
def splitChars : List Char → List (List Char)
  | [] => [[]]
  | c :: cs =>
    match splitChars cs with
    | [] => [[c]]
    | w :: ws => if c = ' ' then [] :: w :: ws else (c :: w) :: ws

/-- Call `s.split(' ')`. -/
def split (s : String) : List String := (splitChars s.data).map String.mk

/-! ## Pieces shared by the two entry points -/

/-- Function `question(prompt)`: the prompt is shown and the next line typed is the value. -/
def question (env : Env) (prompt : String) : Flow String := fun w =>
  (Outcome.ret (env.answers w.asked),
    { w with trace := w.trace ++ [Ev.question prompt (env.answers w.asked)],
             asked := w.asked + 1 })

/-- Call `walletContract.getBalance()`. -/
def getBalance (env : Env) (wc : WalletContract) : Flow Int := fun w =>
  call (Ev.getBalance wc) (env.getBalance wc w.balanceCalls)
    { w with balanceCalls := w.balanceCalls + 1 }

/-- Call `walletContract.getSeqno()`. -/
def getSeqno (env : Env) (wc : WalletContract) : Flow Nat := fun w =>
  call (Ev.getSeqno wc) (env.getSeqno wc w.seqnoCalls)
    { w with seqnoCalls := w.seqnoCalls + 1 }

/-- Function `isValidTonAddress` (lines 20-28): `Address.parse` inside `try`/`catch`. -/
def isValidTonAddress (env : Env) (address : String) : Flow Bool :=
  tryCatch (do let _ ← call (Ev.addressParse address) (env.addressParse address); pure true)
    (fun _ => pure false)

/-- The body of the message (lines 144-151 and 240-247): `null` unless `comment` is truthy,
else the cell with `storeUint(0, 32)` and then `storeStringTail(comment)`. -/
def commentBody (comment : String) : Option Cell :=
  if comment ≠ "" then
    some { stores := [StoreOp.storeUint 0 32, StoreOp.storeStringTail comment] }
  else none

/-- Expression `network.toLowerCase() === 'mainnet'` (lines 37 and 199). -/
def isMainnet (network : String) : Bool := toLowerCase network == "mainnet"

/-- Expression `isMainnet ? 'mainnet' : 'testnet'` (lines 41 and 203). -/
def networkName (mainnet : Bool) : String := if mainnet then "mainnet" else "testnet"

/-- Expression `amount.toString()`. -/
def Amount.toString (env : Env) : Amount → String
  | Amount.number n => env.numberToString n
  | Amount.text s => s

/-! ## `transferTonDirect` (lines 197-274) -/

/-- Lines 237-266 of `transferTonDirect`: the sequence number is read, the transfer is signed
and sent, and the record of success is made. -/
def submitDirect (env : Env) (walletContract : WalletContract) (keyPair : KeyPair)
    (toAddress : Address) (transferAmount : Int) (comment : String) : Flow TransferResult := do
  let seqno ← getSeqno env walletContract
  let body := commentBody comment
  let args : TransferArgs :=
    { seqno := seqno, secretKey := keyPair.secretKey,
      messages := [{ dest := toAddress, value := transferAmount, body := body, bounce := false }] }
  let transfer ← call (Ev.createTransfer walletContract args)
    (env.createTransfer walletContract args)
  call (Ev.send walletContract transfer) (env.send walletContract transfer)
  pure { success := true, message := some "Transaction sent successfully",
         txHash := some transfer.hashHex, error := none }

/-- The `try` block of `transferTonDirect` (lines 199-266). -/
def transferTonDirectTry (env : Env) (mnemonic receiverAddress : String) (amount : Amount)
    (comment network : String) : Flow TransferResult := do
  let mainnet := isMainnet network
  let endpoint ← call (Ev.getHttpEndpoint (networkName mainnet))
    (env.getHttpEndpoint (networkName mainnet))
  let mnemonicWords := split mnemonic
  let isValidMnemonic ← call (Ev.mnemonicValidate mnemonicWords)
    (env.mnemonicValidate mnemonicWords)
  if !isValidMnemonic then raise Thrown.invalidMnemonic else
  let keyPair ← call (Ev.mnemonicToPrivateKey mnemonicWords)
    (env.mnemonicToPrivateKey mnemonicWords)
  let walletContract : WalletContract :=
    { endpoint := endpoint, workchain := 0, publicKey := keyPair.publicKey }
  let toAddress ← call (Ev.addressParse receiverAddress) (env.addressParse receiverAddress)
  let transferAmount ← call (Ev.toNano (amount.toString env))
    (env.toNano (amount.toString env))
  let balance ← getBalance env walletContract
  let estimatedFee ← call (Ev.toNano "0.01") (env.toNano "0.01")
  if balance < transferAmount + estimatedFee then
    raise (Thrown.insufficientBalance (env.fromNano balance)) else
  submitDirect env walletContract keyPair toAddress transferAmount comment

/-- Function `transferTonDirect`: the `try` block, and the `catch` that reads the message of
what it caught and returns it in a record (lines 268-273). -/
def transferTonDirect (env : Env) (mnemonic receiverAddress : String) (amount : Amount)
    (comment network : String) : Flow TransferResult :=
  tryCatch (transferTonDirectTry env mnemonic receiverAddress amount comment network)
    (fun error => do
      let message ← readMessage error
      pure { success := false, message := none, txHash := none, error := message })

/-! ## `transferTon` (lines 31-194) -/

/-- The prompt of line 121. -/
def commentPrompt : String := "Enter comment (optional, press Enter to skip): "

/-- A loop whose fuel is used up: the flow is still running. -/
def outOfFuel {α : Type} : Flow α := fun w => (Outcome.pending, w)

/-- Call `console.log(text)`. -/
def log (text : String) : Flow Unit := emit (Ev.log text)

/-- One turn of the receiver loop (lines 84-91): `some` is `break` with the address parsed,
`none` is the next turn. -/
def askReceiverOnce (env : Env) : Flow (Option Address) := do
  let receiverInput ← question env "Enter receiver\x27s wallet address: "
  let valid ← isValidTonAddress env receiverInput
  if valid then
    let receiverAddress ← call (Ev.addressParse receiverInput) (env.addressParse receiverInput)
    pure (some receiverAddress)
  else
    log "Invalid address format. Please try again."
    pure none

/-- The receiver loop `while (true)` of lines 83-92. -/
def askReceiver (env : Env) : Nat → Flow Address
  | 0 => outOfFuel
  | fuel + 1 => do
    match ← askReceiverOnce env with
    | some receiverAddress => pure receiverAddress
    | none => askReceiver env fuel

/-- The prompt of line 100. -/
def amountPrompt : String := "Enter amount to transfer (in TON): "

/-- Lines 101-117, what one turn of the amount loop does with the line typed: `some` is
`break` with `transferAmount`, `none` is `continue`. -/
def checkAmount (env : Env) (balance : Int) (amountInput : String) : Flow (Option Int) := do
  let amount := env.parseFloat amountInput
  if amount.isNaN || amount.leZero then
    log "Invalid amount. Please enter a positive number."
    pure none
  else
    let transferAmount ← call (Ev.toNano (env.numberToString amount))
      (env.toNano (env.numberToString amount))
    let estimatedFee ← call (Ev.toNano "0.01") (env.toNano "0.01")
    if balance < transferAmount + estimatedFee then
      log ("Insufficient balance. You have " ++ env.fromNano balance ++ " TON, but need " ++
        env.fromNano (transferAmount + estimatedFee) ++ " TON (including fees)")
      pure none
    else
      pure (some transferAmount)

/-- One turn of the amount loop (lines 100-117). -/
def askAmountOnce (env : Env) (balance : Int) : Flow (Option Int) := do
  let amountInput ← question env amountPrompt
  checkAmount env balance amountInput

/-- The amount loop `while (true)` of lines 99-118. -/
def askAmount (env : Env) (balance : Int) : Nat → Flow Int
  | 0 => outOfFuel
  | fuel + 1 => do
    match ← askAmountOnce env balance with
    | some transferAmount => pure transferAmount
    | none => askAmount env balance fuel

/-- One poll of the confirmation loop (lines 175-180): wait two seconds, then ask for the
sequence number; an error of the call is caught and the variable keeps its value. -/
def pollSeqno (env : Env) (wc : WalletContract) (currentSeqno : Nat) : Flow Nat := do
  emit (Ev.sleep 2000)
  tryCatch (getSeqno env wc) (fun _ => pure currentSeqno)

/-- The confirmation loop `while (currentSeqno === seqno)` of lines 174-181. -/
def waitForConfirmation (env : Env) (wc : WalletContract) (seqno : Nat) :
    Nat → Nat → Flow Unit
  | 0, _ => outOfFuel
  | fuel + 1, currentSeqno =>
    if currentSeqno = seqno then do
      let next ← pollSeqno env wc currentSeqno
      waitForConfirmation env wc seqno fuel next
    else pure ()

/-- Lines 138-187 of `transferTon`: what follows a confirmed summary. -/
def sendAndWait (env : Env) (fuel : Nat) (walletContract : WalletContract) (keyPair : KeyPair)
    (receiverAddress : Address) (transferAmount : Int) (comment : String) : Flow Unit := do
  log "\nSending transaction..."
  let seqno ← getSeqno env walletContract
  let body := commentBody comment
  let args : TransferArgs :=
    { seqno := seqno, secretKey := keyPair.secretKey,
      messages :=
        [{ dest := receiverAddress, value := transferAmount, body := body, bounce := false }] }
  let transfer ← call (Ev.createTransfer walletContract args)
    (env.createTransfer walletContract args)
  call (Ev.send walletContract transfer) (env.send walletContract transfer)
  log "Transaction sent successfully!"
  log "Transaction will be processed shortly..."
  log "\nWaiting for confirmation..."
  waitForConfirmation env walletContract seqno fuel seqno
  log "Transaction confirmed!"
  let newBalance ← getBalance env walletContract
  log ("New balance: " ++ env.fromNano newBalance ++ " TON")

/-- Lines 80-118 of `transferTon`: the receiver and the amount are asked for. -/
def askTransfer (env : Env) (fuel : Nat) (balance : Int) : Flow (Address × Int) := do
  log "\n Receiver Wallet "
  let receiverAddress ← askReceiver env fuel
  log ("Receiver address: " ++ env.addressToString receiverAddress)
  log "\n Transfer Amount "
  let transferAmount ← askAmount env balance fuel
  pure (receiverAddress, transferAmount)

/-- Lines 123-187 of `transferTon`: the summary, the confirmation and, unless the user
cancels, the transfer. -/
def summaryAndSend (env : Env) (fuel : Nat) (mainnet : Bool) (walletContract : WalletContract)
    (keyPair : KeyPair) (receiverAddress : Address) (transferAmount : Int) (comment : String) :
    Flow Unit := do
  let senderAddress := env.walletAddress walletContract
  log "\nTransaction Summary"
  log ("From: " ++ env.addressToString senderAddress)
  log ("To: " ++ env.addressToString receiverAddress)
  log ("Amount: " ++ env.fromNano transferAmount ++ " TON")
  log ("Comment: " ++ (if comment ≠ "" then comment else "None"))
  log ("Network: " ++ (if mainnet then "Mainnet" else "Testnet"))
  let confirm ← question env "\nConfirm transaction? (yes/no): "
  if toLowerCase confirm ≠ "yes" ∧ toLowerCase confirm ≠ "y" then
    log "Transaction cancelled."
    emit Ev.rlClose
  else
    sendAndWait env fuel walletContract keyPair receiverAddress transferAmount comment

/-- Lines 120-187 of `transferTon`: the comment is asked for, then the summary and what
follows. -/
def confirmAndSend (env : Env) (fuel : Nat) (mainnet : Bool) (walletContract : WalletContract)
    (keyPair : KeyPair) (receiverAddress : Address) (transferAmount : Int) : Flow Unit := do
  let comment ← question env commentPrompt
  summaryAndSend env fuel mainnet walletContract keyPair receiverAddress transferAmount comment

/-- The `try` block of `transferTon` (lines 33-187).  Each of the three loops may take `fuel`
turns. -/
def transferTonTry (env : Env) (fuel : Nat) : Flow Unit := do
  log " TON Transfer Tool \n"
  let network ← question env "Choose network (mainnet/testnet) [default: testnet]: "
  let mainnet := isMainnet network
  let endpoint ← call (Ev.getHttpEndpoint (networkName mainnet))
    (env.getHttpEndpoint (networkName mainnet))
  log "\n Sender Wallet "
  let mnemonicInput ← question env
    "Enter sender\x27s 24-word mnemonic phrase (space-separated): "
  let mnemonicWords := split (trim mnemonicInput)
  if mnemonicWords.length ≠ 24 then raise Thrown.mnemonicWordCount else
  let isValidMnemonic ← call (Ev.mnemonicValidate mnemonicWords)
    (env.mnemonicValidate mnemonicWords)
  if !isValidMnemonic then raise Thrown.invalidMnemonic else
  let keyPair ← call (Ev.mnemonicToPrivateKey mnemonicWords)
    (env.mnemonicToPrivateKey mnemonicWords)
  let walletContract : WalletContract :=
    { endpoint := endpoint, workchain := 0, publicKey := keyPair.publicKey }
  let senderAddress := env.walletAddress walletContract
  log ("Sender address: " ++ env.addressToString senderAddress)
  let balance ← getBalance env walletContract
  log ("Current balance: " ++ env.fromNano balance ++ " TON")
  if balance = 0 then raise Thrown.noTon else
  let transfer ← askTransfer env fuel balance
  confirmAndSend env fuel mainnet walletContract keyPair transfer.1 transfer.2

/-- Function `transferTon`: the `try` block, the `catch` that reads the message of what it
caught and prints it (line 190; `console.error` prints `undefined` for no message) and the
`finally` that closes the prompt (line 192). -/
def transferTon (env : Env) (fuel : Nat) : Flow Unit :=
  tryFinally
    (tryCatch (transferTonTry env fuel)
      (fun error => do
        let message ← readMessage error
        emit (Ev.logError ("Error: " ++ message.getD "undefined"))))
    (emit Ev.rlClose)

/-! ## Vocabulary of the statements -/

/-- The event is a call of `getBalance`. -/
def Ev.isGetBalance : Ev → Bool
  | Ev.getBalance _ => true
  | _ => false

/-- The event is a call of `Address.parse`, the destination check. -/
def Ev.isAddressParse : Ev → Bool
  | Ev.addressParse _ => true
  | _ => false

/-- The event is the sequence number query, the signing step or the submission. -/
def Ev.isSubmission : Ev → Bool
  | Ev.getSeqno _ => true
  | Ev.createTransfer _ _ => true
  | Ev.send _ _ => true
  | _ => false

/-- The first event of the trace that is a `p` or a `q` is a `p` (or there is none): no `q`
happens before the first `p`. -/
def firstIs (p q : Ev → Bool) : List Ev → Bool
  | [] => true
  | e :: es => if p e then true else if q e then false else firstIs p q es

/-- The values the messages handed to `createTransfer` carry, in the order of the trace. -/
def sentValues : List Ev → List Int
  | [] => []
  | Ev.createTransfer _ args :: es => args.messages.map Message.value ++ sentValues es
  | _ :: es => sentValues es

/-- The event is neither a call of `createTransfer` nor the prompt for the comment. -/
def Ev.isPlain : Ev → Bool
  | Ev.createTransfer _ _ => false
  | Ev.question prompt _ => prompt != commentPrompt
  | _ => true

/-- The event agrees with the comment `c`: a call of `createTransfer` carries one message,
not bounceable, whose body is `commentBody c`, and the prompt for the comment was answered
with `c`. -/
def Ev.commentOk (c : String) : Ev → Bool
  | Ev.createTransfer _ args =>
      args.messages.map (fun m => (m.body, m.bounce)) == [(commentBody c, false)]
  | Ev.question prompt answer => prompt != commentPrompt || answer == c
  | _ => true

/-- The error was raised inside a collaborator. -/
def Thrown.isExternal : Thrown → Bool
  | Thrown.external _ => true
  | _ => false

/-- Some comment agrees with every event the flow adds to the trace. -/
def Flow.Agrees {α : Type} (x : Flow α) : Prop :=
  ∀ w, ∃ c t, (x w).2.trace = w.trace ++ t ∧ ∀ e ∈ t, e.commentOk c = true

/-- Every event a flow adds to the trace satisfies `P`, and every error it ends with
satisfies `T`. -/
def Flow.Sat {α : Type} (P : Ev → Prop) (T : Thrown → Prop) (x : Flow α) : Prop :=
  ∀ w, (∃ t, (x w).2.trace = w.trace ++ t ∧ ∀ e ∈ t, P e) ∧
    ∀ e, (x w).1 = Outcome.threw e → T e

/-- The steps of `transferTonDirect` as the contract of the operation describes them, taken in
the order of the source: the value is the transfer that was sent when every step up to and
including `send` completes, and else the first value raised, the two errors of the function
itself being errors with their message.  This is the reference `transferTonDirect` is compared
with, not a translation of it. -/
def directSteps (env : Env) (mnemonic receiverAddress : String) (amount : Amount)
    (comment network : String) : Except Raised Transfer :=
  match env.getHttpEndpoint (networkName (isMainnet network)) with
  | Except.error r => Except.error r
  | Except.ok endpoint =>
  match env.mnemonicValidate (split mnemonic) with
  | Except.error r => Except.error r
  | Except.ok false => Except.error (Raised.error "Invalid mnemonic phrase")
  | Except.ok true =>
  match env.mnemonicToPrivateKey (split mnemonic) with
  | Except.error r => Except.error r
  | Except.ok keyPair =>
  match env.addressParse receiverAddress with
  | Except.error r => Except.error r
  | Except.ok toAddress =>
  match env.toNano (amount.toString env) with
  | Except.error r => Except.error r
  | Except.ok transferAmount =>
  match env.getBalance ⟨endpoint, 0, keyPair.publicKey⟩ 0 with
  | Except.error r => Except.error r
  | Except.ok balance =>
  match env.toNano "0.01" with
  | Except.error r => Except.error r
  | Except.ok estimatedFee =>
  if balance < transferAmount + estimatedFee then
    Except.error
      (Raised.error ("Insufficient balance. Available: " ++ env.fromNano balance ++ " TON"))
  else
  match env.getSeqno ⟨endpoint, 0, keyPair.publicKey⟩ 0 with
  | Except.error r => Except.error r
  | Except.ok seqno =>
  match env.createTransfer ⟨endpoint, 0, keyPair.publicKey⟩
      ⟨seqno, keyPair.secretKey, [⟨toAddress, transferAmount, commentBody comment, false⟩]⟩ with
  | Except.error r => Except.error r
  | Except.ok transfer =>
  match env.send ⟨endpoint, 0, keyPair.publicKey⟩ transfer with
  | Except.error r => Except.error r
  | Except.ok _ => Except.ok transfer

/-- How a run of `transferTonDirect` ends for an outcome of `directSteps`: the record of
success; the record of failure with the message of the first value raised (`undefined` when it
has none); or, when that value is `null` or `undefined`, the `TypeError` of line 271, which
reaches the caller. -/
def resultOf : Except Raised Transfer → Outcome TransferResult
  | Except.ok transfer =>
      Outcome.ret { success := true, message := some "Transaction sent successfully",
                    txHash := some transfer.hashHex, error := none }
  | Except.error (Raised.error message) =>
      Outcome.ret { success := false, message := none, txHash := none, error := some message }
  | Except.error Raised.noMessage =>
      Outcome.ret { success := false, message := none, txHash := none, error := none }
  | Except.error Raised.nullish => Outcome.threw Thrown.typeError

/-- The events of `n` polls by the confirmation loop. -/
def pollTrace (wc : WalletContract) : Nat → List Ev
  | 0 => []
  | n + 1 => Ev.sleep 2000 :: Ev.getSeqno wc :: pollTrace wc n

/-! ## Sample collaborators -/

/-- A phrase of 24 words. -/
def samplePhrase : String := "w w w w w w w w w w w w w w w w w w w w w w w w"

/-- A phrase of 23 words. -/
def shortPhrase : String := "w w w w w w w w w w w w w w w w w w w w w w w"

/-- A world of collaborators for the examples: the user types `answers`, the wallet holds
`balance`, the polls of the sequence number give `polls`, every phrase passes the validator,
the only address is `"EQ"`, and `toNano`, `parseFloat` and `toString` know a few numerals, on
which they agree with the libraries. -/
def sampleEnv (answers : List String) (balance : Int) (polls : Nat → Except Raised Nat) : Env where
  answers := fun k => answers.getD k ""
  getHttpEndpoint := fun _ => Except.ok "https://node"
  mnemonicValidate := fun _ => Except.ok true
  mnemonicToPrivateKey := fun _ => Except.ok { publicKey := [1], secretKey := [2] }
  addressParse := fun s =>
    if s = "EQ" then Except.ok { workchain := 0, hash := [7] }
    else Except.error (Raised.error "Unknown address type")
  addressToString := fun _ => "EQ"
  walletAddress := fun _ => { workchain := 0, hash := [1] }
  toNano := fun s =>
    if s = "0.01" then Except.ok 10000000
    else if s = "0" then Except.ok 0
    else if s = "1" then Except.ok 1000000000
    else if s = "2" then Except.ok 2000000000
    else Except.error (Raised.error "Invalid number")
  fromNano := fun n => if n = 1000000000 then "1" else "?"
  parseFloat := fun s =>
    if s = "0" then JsNumber.finite 0
    else if s = "1" then JsNumber.finite 1
    else if s = "2" then JsNumber.finite 2
    else JsNumber.nan
  numberToString := fun n =>
    if n = JsNumber.finite 0 then "0"
    else if n = JsNumber.finite 1 then "1"
    else if n = JsNumber.finite 2 then "2"
    else "NaN"
  getBalance := fun _ _ => Except.ok balance
  getSeqno := fun _ k => polls k
  createTransfer := fun _ _ => Except.ok { hashHex := "ab" }
  send := fun _ _ => Except.ok ()

/-- The sample collaborators, but the lookup of the endpoint throws `null`. -/
def nullEndpointEnv : Env :=
  { sampleEnv [] 5000000000 (fun _ => Except.ok 5) with
    getHttpEndpoint := fun _ => Except.error Raised.nullish }

/-- An interactive session: the test network, a phrase of 24 words, the receiver, one TON, no
comment, and the answer that cancels. -/
def sampleSession : List String := ["testnet", samplePhrase, "EQ", "1", "", "no"]

/-- An interactive session that sends: the test network, a phrase of 24 words, the receiver,
one TON, the comment `hello`, and the answer that confirms. -/
def helloSession : List String := ["testnet", samplePhrase, "EQ", "1", "hello", "y"]

/-! ## Running the pieces -/

@[simp] theorem bind_run {α β : Type} (x : Flow α) (f : α → Flow β) (w : World) :
    (x >>= f) w = match x w with
      | (Outcome.ret a, w1) => f a w1
      | (Outcome.threw e, w1) => (Outcome.threw e, w1)
      | (Outcome.pending, w1) => (Outcome.pending, w1) := rfl

@[simp] theorem pure_run {α : Type} (a : α) (w : World) :
    (pure a : Flow α) w = (Outcome.ret a, w) := rfl

@[simp] theorem raise_run {α : Type} (e : Thrown) (w : World) :
    (raise e : Flow α) w = (Outcome.threw e, w) := rfl

@[simp] theorem outOfFuel_run {α : Type} (w : World) :
    (outOfFuel : Flow α) w = (Outcome.pending, w) := rfl

@[simp] theorem emit_run (e : Ev) (w : World) :
    emit e w = (Outcome.ret (), { w with trace := w.trace ++ [e] }) := rfl

@[simp] theorem log_run (text : String) (w : World) :
    log text w = (Outcome.ret (), { w with trace := w.trace ++ [Ev.log text] }) := rfl

@[simp] theorem call_ok_run {α : Type} (e : Ev) (a : α) (w : World) :
    call e (Except.ok a) w = (Outcome.ret a, { w with trace := w.trace ++ [e] }) := rfl

@[simp] theorem call_error_run {α : Type} (e : Ev) (m : Raised) (w : World) :
    (call e (Except.error m) : Flow α) w =
      (Outcome.threw (Thrown.external m), { w with trace := w.trace ++ [e] }) := rfl

@[simp] theorem question_run (env : Env) (prompt : String) (w : World) :
    question env prompt w = (Outcome.ret (env.answers w.asked),
      { w with trace := w.trace ++ [Ev.question prompt (env.answers w.asked)],
               asked := w.asked + 1 }) := rfl

@[simp] theorem getBalance_run (env : Env) (wc : WalletContract) (w : World) :
    getBalance env wc w = call (Ev.getBalance wc) (env.getBalance wc w.balanceCalls)
      { w with balanceCalls := w.balanceCalls + 1 } := rfl

@[simp] theorem getSeqno_run (env : Env) (wc : WalletContract) (w : World) :
    getSeqno env wc w = call (Ev.getSeqno wc) (env.getSeqno wc w.seqnoCalls)
      { w with seqnoCalls := w.seqnoCalls + 1 } := rfl

@[simp] theorem tryCatch_run {α : Type} (x : Flow α) (h : Thrown → Flow α) (w : World) :
    tryCatch x h w = match x w with
      | (Outcome.threw e, w1) => h e w1
      | r => r := rfl

@[simp] theorem tryFinally_run {α : Type} (x : Flow α) (f : Flow Unit) (w : World) :
    tryFinally x f w = match x w with
      | (Outcome.pending, w1) => (Outcome.pending, w1)
      | (r, w1) => (r, (f w1).2) := rfl

/-! ## What a flow adds to the trace -/

theorem sat_pure {α : Type} {P : Ev → Prop} {T : Thrown → Prop} (a : α) :
    Flow.Sat P T (pure a : Flow α) := by
  intro w
  exact ⟨⟨[], by simp, by simp⟩, by simp⟩

theorem sat_raise {α : Type} {P : Ev → Prop} {T : Thrown → Prop} (e : Thrown) (h : T e) :
    Flow.Sat P T (raise e : Flow α) := by
  intro w
  refine ⟨⟨[], by simp, by simp⟩, ?_⟩
  intro e1 h1
  simp at h1
  exact h1 ▸ h

theorem sat_outOfFuel {α : Type} {P : Ev → Prop} {T : Thrown → Prop} :
    Flow.Sat P T (outOfFuel : Flow α) := by
  intro w
  exact ⟨⟨[], by simp, by simp⟩, by simp⟩

theorem sat_emit {P : Ev → Prop} {T : Thrown → Prop} (e : Ev) (h : P e) :
    Flow.Sat P T (emit e) := by
  intro w
  exact ⟨⟨[e], by simp, by simpa using h⟩, by simp⟩

theorem sat_log {P : Ev → Prop} {T : Thrown → Prop} (text : String) (h : P (Ev.log text)) :
    Flow.Sat P T (log text) := sat_emit _ h

theorem sat_call {α : Type} {P : Ev → Prop} {T : Thrown → Prop} (e : Ev) (r : Except Raised α)
    (h : P e) (hT : ∀ m, T (Thrown.external m)) : Flow.Sat P T (call e r) := by
  intro w
  cases r with
  | error m =>
    refine ⟨⟨[e], by simp, by simpa using h⟩, ?_⟩
    intro e1 h1
    simp at h1
    exact h1 ▸ hT m
  | ok a => exact ⟨⟨[e], by simp, by simpa using h⟩, by simp⟩

theorem sat_question {P : Ev → Prop} {T : Thrown → Prop} (env : Env) (prompt : String)
    (h : ∀ a, P (Ev.question prompt a)) : Flow.Sat P T (question env prompt) := by
  intro w
  exact ⟨⟨[Ev.question prompt (env.answers w.asked)], by simp, by simpa using h _⟩, by simp⟩

theorem sat_getBalance {P : Ev → Prop} {T : Thrown → Prop} (env : Env) (wc : WalletContract)
    (h : P (Ev.getBalance wc)) (hT : ∀ m, T (Thrown.external m)) :
    Flow.Sat P T (getBalance env wc) := by
  intro w
  have := sat_call (Ev.getBalance wc) (env.getBalance wc w.balanceCalls) h hT
    { w with balanceCalls := w.balanceCalls + 1 }
  simpa using this

theorem sat_getSeqno {P : Ev → Prop} {T : Thrown → Prop} (env : Env) (wc : WalletContract)
    (h : P (Ev.getSeqno wc)) (hT : ∀ m, T (Thrown.external m)) :
    Flow.Sat P T (getSeqno env wc) := by
  intro w
  have := sat_call (Ev.getSeqno wc) (env.getSeqno wc w.seqnoCalls) h hT
    { w with seqnoCalls := w.seqnoCalls + 1 }
  simpa using this

theorem sat_bind {α β : Type} {P : Ev → Prop} {T : Thrown → Prop} {x : Flow α}
    {f : α → Flow β} (hx : Flow.Sat P T x) (hf : ∀ a, Flow.Sat P T (f a)) :
    Flow.Sat P T (x >>= f) := by
  intro w
  obtain ⟨⟨t, ht, hP⟩, hT⟩ := hx w
  rw [bind_run]
  rcases hxw : x w with ⟨o, w1⟩
  rw [hxw] at ht hT
  cases o with
  | ret a =>
    obtain ⟨⟨t2, ht2, hP2⟩, hT2⟩ := hf a w1
    refine ⟨⟨t ++ t2, ?_, ?_⟩, ?_⟩
    · simp only [ht2]; simp at ht; rw [ht, List.append_assoc]
    · intro e he
      rcases List.mem_append.mp he with h | h
      · exact hP e h
      · exact hP2 e h
    · exact hT2
  | threw e => exact ⟨⟨t, ht, hP⟩, fun e1 h1 => hT e1 (by simpa using h1)⟩
  | pending => exact ⟨⟨t, ht, hP⟩, by simp⟩

theorem sat_tryCatch {α : Type} {P : Ev → Prop} {T : Thrown → Prop} (T1 : Thrown → Prop)
    {x : Flow α} {h : Thrown → Flow α} (hx : Flow.Sat P T1 x) (hh : ∀ e, Flow.Sat P T (h e)) :
    Flow.Sat P T (tryCatch x h) := by
  intro w
  obtain ⟨⟨t, ht, hP⟩, _⟩ := hx w
  rw [tryCatch_run]
  rcases hxw : x w with ⟨o, w1⟩
  rw [hxw] at ht
  cases o with
  | threw e =>
    obtain ⟨⟨t2, ht2, hP2⟩, hT2⟩ := hh e w1
    refine ⟨⟨t ++ t2, ?_, ?_⟩, ?_⟩
    · simp only [ht2]; simp at ht; rw [ht, List.append_assoc]
    · intro e he
      rcases List.mem_append.mp he with h | h
      · exact hP e h
      · exact hP2 e h
    · exact hT2
  | ret a => exact ⟨⟨t, ht, hP⟩, by simp⟩
  | pending => exact ⟨⟨t, ht, hP⟩, by simp⟩

theorem sat_mono {α : Type} {P Q : Ev → Prop} {T U : Thrown → Prop} {x : Flow α}
    (hx : Flow.Sat P T x) (hPQ : ∀ e, P e → Q e) (hTU : ∀ e, T e → U e) : Flow.Sat Q U x := by
  intro w
  obtain ⟨⟨t, ht, hP⟩, hT⟩ := hx w
  exact ⟨⟨t, ht, fun e he => hPQ e (hP e he)⟩, fun e he => hTU e (hT e he)⟩

theorem sat_isValidTonAddress (env : Env) (address : String) :
    Flow.Sat (fun e => e.isPlain = true) (fun e => e.isExternal = true)
      (isValidTonAddress env address) := by
  unfold isValidTonAddress
  refine sat_tryCatch (fun e => e.isExternal = true) ?_ (fun _ => sat_pure _)
  refine sat_bind ?_ (fun _ => sat_pure _)
  exact sat_call _ _ rfl (fun _ => rfl)

theorem sat_askReceiverOnce (env : Env) :
    Flow.Sat (fun e => e.isPlain = true) (fun e => e.isExternal = true)
      (askReceiverOnce env) := by
  unfold askReceiverOnce
  refine sat_bind ?_ (fun receiverInput => ?_)
  · exact sat_question _ _ (fun _ => rfl)
  refine sat_bind (sat_isValidTonAddress _ _) (fun valid => ?_)
  cases valid
  · refine sat_bind ?_ (fun _ => sat_pure _)
    exact sat_log _ rfl
  · refine sat_bind ?_ (fun _ => sat_pure _)
    exact sat_call _ _ rfl (fun _ => rfl)

theorem sat_askReceiver (env : Env) (fuel : Nat) :
    Flow.Sat (fun e => e.isPlain = true) (fun e => e.isExternal = true)
      (askReceiver env fuel) := by
  induction fuel with
  | zero => exact sat_outOfFuel
  | succ fuel ih =>
    unfold askReceiver
    refine sat_bind (sat_askReceiverOnce env) (fun r => ?_)
    cases r with
    | none => exact ih
    | some a => exact sat_pure _

theorem sat_checkAmount (env : Env) (balance : Int) (amountInput : String) :
    Flow.Sat (fun e => e.isPlain = true) (fun e => e.isExternal = true)
      (checkAmount env balance amountInput) := by
  unfold checkAmount
  simp only []
  split
  · refine sat_bind ?_ (fun _ => sat_pure _)
    exact sat_log _ rfl
  · refine sat_bind ?_ (fun transferAmount => ?_)
    · exact sat_call _ _ rfl (fun _ => rfl)
    refine sat_bind ?_ (fun estimatedFee => ?_)
    · exact sat_call _ _ rfl (fun _ => rfl)
    split
    · refine sat_bind ?_ (fun _ => sat_pure _)
      exact sat_log _ rfl
    · exact sat_pure _

theorem sat_askAmountOnce (env : Env) (balance : Int) :
    Flow.Sat (fun e => e.isPlain = true) (fun e => e.isExternal = true)
      (askAmountOnce env balance) := by
  unfold askAmountOnce
  refine sat_bind ?_ (fun amountInput => sat_checkAmount _ _ _)
  exact sat_question _ _ (fun _ => rfl)

theorem sat_askAmount (env : Env) (balance : Int) (fuel : Nat) :
    Flow.Sat (fun e => e.isPlain = true) (fun e => e.isExternal = true)
      (askAmount env balance fuel) := by
  induction fuel with
  | zero => exact sat_outOfFuel
  | succ fuel ih =>
    unfold askAmount
    refine sat_bind (sat_askAmountOnce env balance) (fun r => ?_)
    cases r with
    | none => exact ih
    | some a => exact sat_pure _

theorem sat_askTransfer (env : Env) (fuel : Nat) (balance : Int) :
    Flow.Sat (fun e => e.isPlain = true) (fun e => e.isExternal = true)
      (askTransfer env fuel balance) := by
  unfold askTransfer
  refine sat_bind ?_ (fun _ => ?_)
  · exact sat_log _ rfl
  refine sat_bind (sat_askReceiver _ _) (fun _ => ?_)
  refine sat_bind ?_ (fun _ => ?_)
  · exact sat_log _ rfl
  refine sat_bind ?_ (fun _ => ?_)
  · exact sat_log _ rfl
  exact sat_bind (sat_askAmount _ _ _) (fun _ => sat_pure _)

theorem sat_pollSeqno (env : Env) (wc : WalletContract) (currentSeqno : Nat) (c : String) :
    Flow.Sat (fun e => e.commentOk c = true) (fun e => e.isExternal = true)
      (pollSeqno env wc currentSeqno) := by
  unfold pollSeqno
  refine sat_bind ?_ (fun _ => ?_)
  · exact sat_emit _ rfl
  refine sat_tryCatch (fun e => e.isExternal = true) ?_ (fun _ => sat_pure _)
  exact sat_getSeqno _ _ rfl (fun _ => rfl)

theorem sat_waitForConfirmation (env : Env) (wc : WalletContract) (seqno : Nat) (c : String)
    (fuel : Nat) : ∀ currentSeqno,
    Flow.Sat (fun e => e.commentOk c = true) (fun e => e.isExternal = true)
      (waitForConfirmation env wc seqno fuel currentSeqno) := by
  induction fuel with
  | zero => intro _; exact sat_outOfFuel
  | succ fuel ih =>
    intro currentSeqno
    unfold waitForConfirmation
    split
    · exact sat_bind (sat_pollSeqno _ _ _ _) (fun next => ih next)
    · exact sat_pure _

theorem sat_sendAndWait (env : Env) (fuel : Nat) (wc : WalletContract) (keyPair : KeyPair)
    (receiverAddress : Address) (transferAmount : Int) (comment : String) :
    Flow.Sat (fun e => e.commentOk comment = true) (fun e => e.isExternal = true)
      (sendAndWait env fuel wc keyPair receiverAddress transferAmount comment) := by
  unfold sendAndWait
  refine sat_bind ?_ (fun _ => ?_)
  · exact sat_log _ rfl
  refine sat_bind ?_ (fun seqno => ?_)
  · exact sat_getSeqno _ _ rfl (fun _ => rfl)
  refine sat_bind ?_ (fun transfer => ?_)
  · exact sat_call _ _ (by simp [Ev.commentOk]) (fun _ => rfl)
  refine sat_bind ?_ (fun _ => ?_)
  · exact sat_call _ _ rfl (fun _ => rfl)
  refine sat_bind ?_ (fun _ => ?_)
  · exact sat_log _ rfl
  refine sat_bind ?_ (fun _ => ?_)
  · exact sat_log _ rfl
  refine sat_bind ?_ (fun _ => ?_)
  · exact sat_log _ rfl
  refine sat_bind (sat_waitForConfirmation _ _ _ _ _ _) (fun _ => ?_)
  refine sat_bind ?_ (fun _ => ?_)
  · exact sat_log _ rfl
  refine sat_bind ?_ (fun _ => ?_)
  · exact sat_getBalance _ _ rfl (fun _ => rfl)
  exact sat_log _ rfl

theorem sat_submitDirect (env : Env) (wc : WalletContract) (keyPair : KeyPair)
    (toAddress : Address) (transferAmount : Int) (comment : String) :
    Flow.Sat (fun e => e.commentOk comment = true) (fun e => e.isExternal = true)
      (submitDirect env wc keyPair toAddress transferAmount comment) := by
  unfold submitDirect
  refine sat_bind ?_ (fun seqno => ?_)
  · exact sat_getSeqno _ _ rfl (fun _ => rfl)
  refine sat_bind ?_ (fun transfer => ?_)
  · exact sat_call _ _ (by simp [Ev.commentOk]) (fun _ => rfl)
  refine sat_bind ?_ (fun _ => sat_pure _)
  exact sat_call _ _ rfl (fun _ => rfl)

theorem submitDirect_head (env : Env) (wc : WalletContract) (keyPair : KeyPair)
    (toAddress : Address) (transferAmount : Int) (comment : String) (w : World) :
    ∃ t, (submitDirect env wc keyPair toAddress transferAmount comment w).2.trace =
      w.trace ++ Ev.getSeqno wc :: t := by
  unfold submitDirect
  cases h1 : env.getSeqno wc w.seqnoCalls with
  | error m => simp [h1]
  | ok seqno =>
    cases h2 : env.createTransfer wc
        ⟨seqno, keyPair.secretKey, [⟨toAddress, transferAmount, commentBody comment, false⟩]⟩ with
    | error m => simp [h1, h2]
    | ok transfer =>
      cases h3 : env.send wc transfer with
      | error m => simp [h1, h2, h3]
      | ok u => simp [h1, h2, h3]

theorem askAmount_head (env : Env) (balance : Int) (fuel : Nat) (w : World) :
    ∃ t, (askAmount env balance (fuel + 1) w).2.trace =
      w.trace ++ Ev.question amountPrompt (env.answers w.asked) :: t := by
  have hk : Flow.Sat (fun e => e.isPlain = true) (fun e => e.isExternal = true)
      (checkAmount env balance (env.answers w.asked) >>= fun r =>
        match r with
        | some transferAmount => pure transferAmount
        | none => askAmount env balance fuel) := by
    refine sat_bind (sat_checkAmount _ _ _) (fun r => ?_)
    cases r with
    | none => exact sat_askAmount _ _ _
    | some a => exact sat_pure _
  obtain ⟨⟨t, ht, _⟩, _⟩ := hk { w with
    trace := w.trace ++ [Ev.question amountPrompt (env.answers w.asked)], asked := w.asked + 1 }
  refine ⟨t, ?_⟩
  simp only [bind_run] at ht
  simp only [askAmount, askAmountOnce, bind_run, question_run]
  exact (show _ = w.trace ++ [Ev.question amountPrompt (env.answers w.asked)] ++ t from ht).trans
    (by simp)


theorem transferTonDirect_world (env : Env) (mnemonic receiverAddress : String)
    (amount : Amount) (comment network : String) (w : World) :
    (transferTonDirect env mnemonic receiverAddress amount comment network w).2 =
      (transferTonDirectTry env mnemonic receiverAddress amount comment network w).2 := by
  unfold transferTonDirect
  rw [tryCatch_run]
  rcases transferTonDirectTry env mnemonic receiverAddress amount comment network w with ⟨o, w1⟩
  cases o with
  | ret a => rfl
  | pending => rfl
  | threw e =>
    simp only [bind_run, readMessage]
    cases e.message <;> rfl

/-! ## C1: the affordability check -/

/-- C1: with `toNano('0.01')` equal to 10,000,000, both entry points reject an amount exactly
when `balance < amountNano + 10,000,000` and accept it exactly when
`balance ≥ amountNano + 10,000,000`.  In `transferTonDirect` (reached the balance check:
`h1`-`h6`) rejection is the insufficient balance error, returned as a record with
`success = false`, and a sequence number query, a signing or a send happens exactly when the
amount is accepted.  In the amount loop of `transferTon` (a typed line that parses to a positive
number: `h7`-`h9`) a rejected amount is not the value of the turn and the loop asks the user
again; an accepted one ends the loop. -/
theorem affordability_check_exact (env : Env) (mnemonic receiverAddress : String)
    (amount : Amount) (comment network endpoint : String) (keyPair : KeyPair)
    (toAddress : Address) (amountNano balance : Int) (amountInput : String) (w : World)
    (hfee : env.toNano "0.01" = Except.ok 10000000)
    (h1 : env.getHttpEndpoint (networkName (isMainnet network)) = Except.ok endpoint)
    (h2 : env.mnemonicValidate (split mnemonic) = Except.ok true)
    (h3 : env.mnemonicToPrivateKey (split mnemonic) = Except.ok keyPair)
    (h4 : env.addressParse receiverAddress = Except.ok toAddress)
    (h5 : env.toNano (amount.toString env) = Except.ok amountNano)
    (h6 : env.getBalance { endpoint := endpoint, workchain := 0, publicKey := keyPair.publicKey }
      0 = Except.ok balance)
    (h7 : (env.parseFloat amountInput).isNaN = false)
    (h8 : (env.parseFloat amountInput).leZero = false)
    (h9 : env.toNano (env.numberToString (env.parseFloat amountInput)) = Except.ok amountNano)
    (h10 : env.answers w.asked = amountInput) :
    ((transferTonDirectTry env mnemonic receiverAddress amount comment network World.init).1 =
        Outcome.threw (Thrown.insufficientBalance (env.fromNano balance)) ↔
      balance < amountNano + 10000000) ∧
    ((∃ e ∈ (transferTonDirect env mnemonic receiverAddress amount comment network
        World.init).2.trace, e.isSubmission = true) ↔ balance ≥ amountNano + 10000000) ∧
    (balance < amountNano + 10000000 →
      (transferTonDirect env mnemonic receiverAddress amount comment network World.init).1 =
        Outcome.ret { success := false, message := none, txHash := none,
                      error := some ("Insufficient balance. Available: " ++
                        env.fromNano balance ++ " TON") }) ∧
    ((checkAmount env balance amountInput w).1 = Outcome.ret none ↔
      balance < amountNano + 10000000) ∧
    ((checkAmount env balance amountInput w).1 = Outcome.ret (some amountNano) ↔
      balance ≥ amountNano + 10000000) ∧
    (balance < amountNano + 10000000 → ∀ fuel, ∃ t,
      (askAmount env balance (fuel + 2) w).2.trace =
        w.trace ++ [Ev.question amountPrompt amountInput,
          Ev.toNano (env.numberToString (env.parseFloat amountInput)), Ev.toNano "0.01",
          Ev.log ("Insufficient balance. You have " ++ env.fromNano balance ++
            " TON, but need " ++ env.fromNano (amountNano + 10000000) ++
            " TON (including fees)"),
          Ev.question amountPrompt (env.answers (w.asked + 1))] ++ t) ∧
    (balance ≥ amountNano + 10000000 → ∀ fuel,
      (askAmount env balance (fuel + 1) w).1 = Outcome.ret amountNano) := by
  refine ⟨?_, ?_, ?_, ?_, ?_, ?_, ?_⟩
  · by_cases h : balance < amountNano + 10000000
    · simp [transferTonDirectTry, World.init, h1, h2, h3, h4, h5, h6, hfee, h]
    · simp only [h, iff_false]
      intro hc
      have := (sat_submitDirect env
        { endpoint := endpoint, workchain := 0, publicKey := keyPair.publicKey } keyPair
        toAddress amountNano comment _).2 _ (by
          simpa [transferTonDirectTry, World.init, h1, h2, h3, h4, h5, h6, hfee, h] using hc)
      simp [Thrown.isExternal] at this
  · by_cases h : balance < amountNano + 10000000
    · rw [transferTonDirect_world]
      simp [transferTonDirectTry, World.init, h1, h2, h3, h4, h5, h6, hfee, h,
        Ev.isSubmission]
    · have h' : amountNano + 10000000 ≤ balance := not_lt.mp h
      simp only [ge_iff_le, h', iff_true]
      refine ⟨Ev.getSeqno { endpoint := endpoint, workchain := 0, publicKey := keyPair.publicKey },
        ?_, rfl⟩
      obtain ⟨t, ht⟩ := submitDirect_head env
        { endpoint := endpoint, workchain := 0, publicKey := keyPair.publicKey } keyPair
        toAddress amountNano comment
        { trace := [Ev.getHttpEndpoint (networkName (isMainnet network)),
            Ev.mnemonicValidate (split mnemonic), Ev.mnemonicToPrivateKey (split mnemonic),
            Ev.addressParse receiverAddress, Ev.toNano (amount.toString env),
            Ev.getBalance { endpoint := endpoint, workchain := 0, publicKey := keyPair.publicKey },
            Ev.toNano "0.01"], asked := 0, balanceCalls := 1, seqnoCalls := 0 }
      rw [transferTonDirect_world]
      simp [transferTonDirectTry, World.init, h1, h2, h3, h4, h5, h6, hfee, h]
      rw [ht]
      simp
  · intro h
    simp [transferTonDirect, transferTonDirectTry, World.init, h1, h2, h3, h4, h5, h6, hfee, h,
      readMessage, Thrown.message]
  · by_cases h : balance < amountNano + 10000000 <;>
      simp [checkAmount, h7, h8, h9, hfee, h]
  · by_cases h : balance < amountNano + 10000000 <;>
      simp [checkAmount, h7, h8, h9, hfee, h]
    exact not_lt.mp h
  · intro h fuel
    subst h10
    obtain ⟨t, ht⟩ := askAmount_head env balance fuel { w with
      trace := w.trace ++ [Ev.question amountPrompt (env.answers w.asked),
        Ev.toNano (env.numberToString (env.parseFloat (env.answers w.asked))), Ev.toNano "0.01",
        Ev.log ("Insufficient balance. You have " ++ env.fromNano balance ++
          " TON, but need " ++ env.fromNano (amountNano + 10000000) ++
          " TON (including fees)")], asked := w.asked + 1 }
    refine ⟨t, ?_⟩
    rw [askAmount]
    simp [askAmountOnce, checkAmount, h7, h8, h9, hfee, h]
    simpa using ht
  · intro h fuel
    subst h10
    have h' : ¬ balance < amountNano + 10000000 := not_lt.mpr h
    simp [askAmount, askAmountOnce, checkAmount, h7, h8, h9, hfee, h']

/-! ## C3: what `transferTonDirect` returns -/

set_option maxRecDepth 100000 in
/-- C3, as stated, fails: when the lookup of the endpoint throws `null`, the `catch` of
`transferTonDirect` raises on reading the message of `null`, and the run ends with that error
raised to the caller, not with a record. -/
theorem transferTonDirect_raises_on_null :
    nullEndpointEnv.getHttpEndpoint "testnet" = Except.error Raised.nullish ∧
    transferTonDirect nullEndpointEnv samplePhrase "EQ" (Amount.text "1") "" "testnet"
        World.init =
      (Outcome.threw Thrown.typeError,
        { trace := [Ev.getHttpEndpoint "testnet"], asked := 0, balanceCalls := 0,
          seqnoCalls := 0 }) :=
  ⟨rfl, by decide!⟩

/-- C3, amended: whatever the collaborators do, `transferTonDirect` is not left running and
ends as the steps call for.  It returns the record with `success = true`, the message and the
hash of the transfer exactly when every step up to and including `send` completed.  When a
step raised and the first value raised is not `null` or `undefined`, it returns the record with
`success = false` and, as `error`, the message of that value (`undefined` when it has none).
Only when the first value raised is `null` or `undefined` does an error reach the caller: the
`TypeError` of the read of its message in the `catch`. -/
theorem transferTonDirect_returns_record (env : Env) (mnemonic receiverAddress : String)
    (amount : Amount) (comment network : String) :
    (transferTonDirect env mnemonic receiverAddress amount comment network World.init).1 =
      resultOf (directSteps env mnemonic receiverAddress amount comment network) ∧
    ((∃ record, (transferTonDirect env mnemonic receiverAddress amount comment network
          World.init).1 = Outcome.ret record ∧ record.success = true) ↔
      ∃ transfer, directSteps env mnemonic receiverAddress amount comment network =
        Except.ok transfer) ∧
    ((∃ record, (transferTonDirect env mnemonic receiverAddress amount comment network
          World.init).1 = Outcome.ret record) ↔
      directSteps env mnemonic receiverAddress amount comment network ≠
        Except.error Raised.nullish) ∧
    (∀ e, (transferTonDirect env mnemonic receiverAddress amount comment network
          World.init).1 = Outcome.threw e →
      e = Thrown.typeError ∧
      directSteps env mnemonic receiverAddress amount comment network =
        Except.error Raised.nullish) := by
  have key : (transferTonDirect env mnemonic receiverAddress amount comment network
      World.init).1 =
      resultOf (directSteps env mnemonic receiverAddress amount comment network) := by
    cases h1 : env.getHttpEndpoint (networkName (isMainnet network)) with
    | error r =>
      cases r <;> simp [transferTonDirect, transferTonDirectTry, directSteps, resultOf,
        World.init, h1, readMessage, Thrown.message]
    | ok endpoint =>
    cases h2 : env.mnemonicValidate (split mnemonic) with
    | error r =>
      cases r <;> simp [transferTonDirect, transferTonDirectTry, directSteps, resultOf,
        World.init, h1, h2, readMessage, Thrown.message]
    | ok valid =>
    cases valid with
    | false =>
      simp [transferTonDirect, transferTonDirectTry, directSteps, resultOf,
        World.init, h1, h2, readMessage, Thrown.message]
    | true =>
    cases h3 : env.mnemonicToPrivateKey (split mnemonic) with
    | error r =>
      cases r <;> simp [transferTonDirect, transferTonDirectTry, directSteps, resultOf,
        World.init, h1, h2, h3, readMessage, Thrown.message]
    | ok keyPair =>
    cases h4 : env.addressParse receiverAddress with
    | error r =>
      cases r <;> simp [transferTonDirect, transferTonDirectTry, directSteps, resultOf,
        World.init, h1, h2, h3, h4, readMessage, Thrown.message]
    | ok toAddress =>
    cases h5 : env.toNano (amount.toString env) with
    | error r =>
      cases r <;> simp [transferTonDirect, transferTonDirectTry, directSteps, resultOf,
        World.init, h1, h2, h3, h4, h5, readMessage, Thrown.message]
    | ok transferAmount =>
    cases h6 : env.getBalance ⟨endpoint, 0, keyPair.publicKey⟩ 0 with
    | error r =>
      cases r <;> simp [transferTonDirect, transferTonDirectTry, directSteps, resultOf,
        World.init, h1, h2, h3, h4, h5, h6, readMessage, Thrown.message]
    | ok balance =>
    cases h7 : env.toNano "0.01" with
    | error r =>
      cases r <;> simp [transferTonDirect, transferTonDirectTry, directSteps, resultOf,
        World.init, h1, h2, h3, h4, h5, h6, h7, readMessage, Thrown.message]
    | ok fee =>
    by_cases h8 : balance < transferAmount + fee
    · simp [transferTonDirect, transferTonDirectTry, directSteps, resultOf,
        World.init, h1, h2, h3, h4, h5, h6, h7, h8, readMessage, Thrown.message]
    cases h9 : env.getSeqno ⟨endpoint, 0, keyPair.publicKey⟩ 0 with
    | error r =>
      cases r <;> simp [transferTonDirect, transferTonDirectTry, submitDirect, directSteps,
        resultOf, World.init, h1, h2, h3, h4, h5, h6, h7, h8, h9, readMessage, Thrown.message]
    | ok seqno =>
    cases h10 : env.createTransfer ⟨endpoint, 0, keyPair.publicKey⟩
      ⟨seqno, keyPair.secretKey, [⟨toAddress, transferAmount, commentBody comment, false⟩]⟩ with
    | error r =>
      cases r <;> simp [transferTonDirect, transferTonDirectTry, submitDirect, directSteps,
        resultOf, World.init, h1, h2, h3, h4, h5, h6, h7, h8, h9, h10, readMessage,
        Thrown.message]
    | ok transfer =>
    cases h11 : env.send ⟨endpoint, 0, keyPair.publicKey⟩ transfer with
    | error r =>
      cases r <;> simp [transferTonDirect, transferTonDirectTry, submitDirect, directSteps,
        resultOf, World.init, h1, h2, h3, h4, h5, h6, h7, h8, h9, h10, h11, readMessage,
        Thrown.message]
    | ok u =>
      simp [transferTonDirect, transferTonDirectTry, submitDirect, directSteps,
        resultOf, World.init, h1, h2, h3, h4, h5, h6, h7, h8, h9, h10, h11]
  refine ⟨key, ?_, ?_, ?_⟩
  · rw [key]
    rcases directSteps env mnemonic receiverAddress amount comment network with r | t
    · cases r <;> simp [resultOf]
    · simp [resultOf]
  · rw [key]
    rcases directSteps env mnemonic receiverAddress amount comment network with r | t
    · cases r <;> simp [resultOf]
    · simp [resultOf]
  · intro e
    rw [key]
    rcases directSteps env mnemonic receiverAddress amount comment network with r | t
    · cases r <;> simp [resultOf]
      intro h
      exact h.symm
    · simp [resultOf]

/-! ## C8: validation comes before signing -/

/-- C8: in `transferTonDirect`, a run that ends in a validation failure (the phrase is not
valid, `Address.parse` or `toNano` rejects its argument, or the balance is below the amount plus
the margin) has made no call of `getSeqno`, `createTransfer` or `send`; and whenever
`createTransfer` is called, the phrase was found valid, the destination was parsed, the amount
was converted and the balance was found sufficient, in that order, each before it. -/
theorem validation_precedes_signing (env : Env) (mnemonic receiverAddress : String)
    (amount : Amount) (comment network : String) :
    ((env.mnemonicValidate (split mnemonic) = Except.ok false ∨
        (∃ m, env.addressParse receiverAddress = Except.error m) ∨
        (∃ m, env.toNano (amount.toString env) = Except.error m) ∨
        (∃ available, (transferTonDirectTry env mnemonic receiverAddress amount comment network
          World.init).1 = Outcome.threw (Thrown.insufficientBalance available))) →
      ∀ e ∈ (transferTonDirect env mnemonic receiverAddress amount comment network
        World.init).2.trace, e.isSubmission = false) ∧
    (∀ wc args, Ev.createTransfer wc args ∈ (transferTonDirect env mnemonic receiverAddress
        amount comment network World.init).2.trace →
      ∃ endpoint keyPair toAddress transferAmount balance fee seqno rest,
        env.getHttpEndpoint (networkName (isMainnet network)) = Except.ok endpoint ∧
        env.mnemonicValidate (split mnemonic) = Except.ok true ∧
        env.mnemonicToPrivateKey (split mnemonic) = Except.ok keyPair ∧
        wc = { endpoint := endpoint, workchain := 0, publicKey := keyPair.publicKey } ∧
        env.addressParse receiverAddress = Except.ok toAddress ∧
        env.toNano (amount.toString env) = Except.ok transferAmount ∧
        env.getBalance wc 0 = Except.ok balance ∧
        env.toNano "0.01" = Except.ok fee ∧
        balance ≥ transferAmount + fee ∧
        env.getSeqno wc 0 = Except.ok seqno ∧
        (transferTonDirect env mnemonic receiverAddress amount comment network
          World.init).2.trace =
          [Ev.getHttpEndpoint (networkName (isMainnet network)),
           Ev.mnemonicValidate (split mnemonic), Ev.mnemonicToPrivateKey (split mnemonic),
           Ev.addressParse receiverAddress, Ev.toNano (amount.toString env), Ev.getBalance wc,
           Ev.toNano "0.01", Ev.getSeqno wc, Ev.createTransfer wc args] ++ rest) := by
  rw [transferTonDirect_world]
  cases h1 : env.getHttpEndpoint (networkName (isMainnet network)) <;>
    simp [transferTonDirectTry, submitDirect, World.init, h1, Ev.isSubmission]
  cases h2 : env.mnemonicValidate (split mnemonic) <;> simp [h2, Ev.isSubmission]
  rename_i valid
  cases valid <;> simp [Ev.isSubmission]
  cases h3 : env.mnemonicToPrivateKey (split mnemonic) <;> simp [h3, Ev.isSubmission]
  cases h4 : env.addressParse receiverAddress <;> simp [h4, Ev.isSubmission]
  cases h5 : env.toNano (amount.toString env) <;> simp [h5, Ev.isSubmission]
  rename_i endpoint keyPair toAddress transferAmount
  cases h6 : env.getBalance ⟨endpoint, 0, keyPair.publicKey⟩ 0 <;> simp [h6, Ev.isSubmission]
  cases h7 : env.toNano "0.01" <;> simp [h7, Ev.isSubmission]
  rename_i balance fee
  by_cases h8 : balance < transferAmount + fee <;> simp [h8, Ev.isSubmission]
  cases h9 : env.getSeqno ⟨endpoint, 0, keyPair.publicKey⟩ 0 <;> simp [h9]
  rename_i seqno
  cases h10 : env.createTransfer ⟨endpoint, 0, keyPair.publicKey⟩
    ⟨seqno, keyPair.secretKey, [⟨toAddress, transferAmount, commentBody comment, false⟩]⟩ <;>
    simp [h10]
  · exact ⟨balance, h6, not_lt.mp h8, seqno, h9⟩
  rename_i transfer
  cases h11 : env.send ⟨endpoint, 0, keyPair.publicKey⟩ transfer <;> simp [h11]
  all_goals exact ⟨balance, h6, not_lt.mp h8, seqno, h9⟩

theorem sat_summaryAndSend (env : Env) (fuel : Nat) (mainnet : Bool) (wc : WalletContract)
    (keyPair : KeyPair) (receiverAddress : Address) (transferAmount : Int) (comment : String) :
    Flow.Sat (fun e => e.commentOk comment = true) (fun e => e.isExternal = true)
      (summaryAndSend env fuel mainnet wc keyPair receiverAddress transferAmount comment) := by
  unfold summaryAndSend
  refine sat_bind (sat_log _ rfl) (fun _ => ?_)
  refine sat_bind (sat_log _ rfl) (fun _ => ?_)
  refine sat_bind (sat_log _ rfl) (fun _ => ?_)
  refine sat_bind (sat_log _ rfl) (fun _ => ?_)
  refine sat_bind (sat_log _ rfl) (fun _ => ?_)
  refine sat_bind (sat_log _ rfl) (fun _ => ?_)
  refine sat_bind (sat_question _ _ (fun _ => rfl)) (fun confirm => ?_)
  split
  · exact sat_bind (sat_log _ rfl) (fun _ => sat_emit _ rfl)
  · exact sat_sendAndWait _ _ _ _ _ _ _

theorem sat_confirmAndSend (env : Env) (fuel : Nat) (mainnet : Bool) (wc : WalletContract)
    (keyPair : KeyPair) (receiverAddress : Address) (transferAmount : Int) :
    Flow.Sat (fun _ => True) (fun e => e.isExternal = true)
      (confirmAndSend env fuel mainnet wc keyPair receiverAddress transferAmount) := by
  unfold confirmAndSend
  refine sat_bind (sat_question _ _ (fun _ => trivial)) (fun comment => ?_)
  exact sat_mono (sat_summaryAndSend _ _ _ _ _ _ _ _) (fun _ _ => trivial) (fun _ h => h)

theorem sat_afterBalance (env : Env) (fuel : Nat) (mainnet : Bool) (wc : WalletContract)
    (keyPair : KeyPair) (balance : Int) :
    Flow.Sat (fun _ => True) (fun e => e.isExternal = true)
      (askTransfer env fuel balance >>= fun transfer =>
        confirmAndSend env fuel mainnet wc keyPair transfer.1 transfer.2) :=
  sat_bind (sat_mono (sat_askTransfer _ _ _) (fun _ _ => trivial) (fun _ h => h))
    (fun _ => sat_confirmAndSend _ _ _ _ _ _ _)

theorem transferTon_trace (env : Env) (fuel : Nat) (w : World) :
    ∃ extra, (transferTon env fuel w).2.trace = (transferTonTry env fuel w).2.trace ++ extra ∧
      ∀ e ∈ extra, e = Ev.rlClose ∨ ∃ m, e = Ev.logError m := by
  unfold transferTon
  simp only [tryFinally_run, tryCatch_run]
  rcases transferTonTry env fuel w with ⟨o, w1⟩
  cases o with
  | ret a => exact ⟨[Ev.rlClose], by simp⟩
  | threw e =>
    simp only [bind_run, readMessage]
    cases e.message with
    | none => exact ⟨[Ev.rlClose], by simp⟩
    | some m => exact ⟨[Ev.logError ("Error: " ++ m.getD "undefined"), Ev.rlClose], by simp⟩
  | pending => exact ⟨[], by simp⟩

theorem firstIs_append (p q : Ev → Bool) (t extra : List Ev) (ht : firstIs p q t = true)
    (hextra : ∀ e ∈ extra, q e = false) : firstIs p q (t ++ extra) = true := by
  induction t with
  | nil =>
    induction extra with
    | nil => rfl
    | cons e es ih =>
      have he := hextra e (by simp)
      simp only [List.nil_append, firstIs, he]
      split
      · rfl
      · simpa using ih (fun e' h' => hextra e' (by simp [h']))
  | cons e es ih =>
    simp only [List.cons_append, firstIs] at ht ⊢
    split
    · rfl
    · rename_i hp
      simp only [hp] at ht
      split
      · rename_i hq; simp [hq] at ht
      · rename_i hq; simp only [hq] at ht; exact ih (by simpa using ht)

/-- When lines 33-78 of `transferTon` succeed, the rest of the `try` block runs in a world
whose trace is the ten events of those lines. -/
theorem transferTonTry_reaches (env : Env) (fuel : Nat) (endpoint : String) (keyPair : KeyPair)
    (balance : Int)
    (h1 : env.getHttpEndpoint (networkName (isMainnet (env.answers 0))) = Except.ok endpoint)
    (h2 : (split (trim (env.answers 1))).length = 24)
    (h3 : env.mnemonicValidate (split (trim (env.answers 1))) = Except.ok true)
    (h4 : env.mnemonicToPrivateKey (split (trim (env.answers 1))) = Except.ok keyPair)
    (h5 : env.getBalance ⟨endpoint, 0, keyPair.publicKey⟩ 0 = Except.ok balance)
    (h6 : balance ≠ 0) :
    ∃ w1, transferTonTry env fuel World.init =
      (askTransfer env fuel balance >>= fun transfer =>
        confirmAndSend env fuel (isMainnet (env.answers 0)) ⟨endpoint, 0, keyPair.publicKey⟩
          keyPair transfer.1 transfer.2) w1 ∧
      w1.trace = [Ev.log " TON Transfer Tool \n",
          Ev.question "Choose network (mainnet/testnet) [default: testnet]: " (env.answers 0),
          Ev.getHttpEndpoint (networkName (isMainnet (env.answers 0))),
          Ev.log "\n Sender Wallet ",
          Ev.question "Enter sender\x27s 24-word mnemonic phrase (space-separated): "
            (env.answers 1),
          Ev.mnemonicValidate (split (trim (env.answers 1))),
          Ev.mnemonicToPrivateKey (split (trim (env.answers 1))),
          Ev.log ("Sender address: " ++
            env.addressToString (env.walletAddress ⟨endpoint, 0, keyPair.publicKey⟩)),
          Ev.getBalance ⟨endpoint, 0, keyPair.publicKey⟩,
          Ev.log ("Current balance: " ++ env.fromNano balance ++ " TON")] ∧
      w1.asked = 2 := by
  refine ⟨⟨_, 2, 1, 0⟩, ?_, rfl, rfl⟩
  simp [transferTonTry, World.init, h1, h2, h3, h4, h5, h6]

/-! ## C9: the destination check and the balance query -/

set_option maxRecDepth 100000 in
/-- C9, as stated, fails in `transferTon`: in the sample session the ninth event of the trace
is the call of `getBalance`, and no call of `Address.parse` comes before it. -/
theorem transferTon_reads_balance_before_destination :
    firstIs Ev.isAddressParse Ev.isGetBalance
      (transferTon (sampleEnv sampleSession 5000000000 (fun _ => Except.ok 5)) 1
        World.init).2.trace = false ∧
    ((transferTon (sampleEnv sampleSession 5000000000 (fun _ => Except.ok 5)) 1
        World.init).2.trace.take 11).map (fun e => (e.isGetBalance, e.isAddressParse)) =
      [(false, false), (false, false), (false, false), (false, false), (false, false),
       (false, false), (false, false), (false, false), (true, false), (false, false),
       (false, false)] := by
  decide!

/-- C9, amended: in `transferTonDirect` no call of `getBalance` is made before the destination
has been checked by `Address.parse`; in `transferTon` the order is the other one, no call of
`Address.parse` is made before the balance has been read. -/
theorem destination_check_order (env : Env) (mnemonic receiverAddress : String)
    (amount : Amount) (comment network : String) (fuel : Nat) :
    firstIs Ev.isAddressParse Ev.isGetBalance
      (transferTonDirect env mnemonic receiverAddress amount comment network
        World.init).2.trace = true ∧
    firstIs Ev.isGetBalance Ev.isAddressParse (transferTon env fuel World.init).2.trace = true := by
  constructor
  · rw [transferTonDirect_world]
    cases h1 : env.getHttpEndpoint (networkName (isMainnet network)) <;>
      simp [transferTonDirectTry, submitDirect, World.init, h1, firstIs, Ev.isAddressParse,
        Ev.isGetBalance]
    cases h2 : env.mnemonicValidate (split mnemonic) <;> simp [h2, firstIs, Ev.isAddressParse,
        Ev.isGetBalance]
    rename_i valid
    cases valid <;> simp [firstIs, Ev.isAddressParse, Ev.isGetBalance]
    cases h3 : env.mnemonicToPrivateKey (split mnemonic) <;> simp [h3, firstIs,
      Ev.isAddressParse, Ev.isGetBalance]
    cases h4 : env.addressParse receiverAddress <;> simp [h4, firstIs, Ev.isAddressParse,
      Ev.isGetBalance]
    cases h5 : env.toNano (amount.toString env) <;> simp [h5, firstIs, Ev.isAddressParse,
      Ev.isGetBalance]
    rename_i endpoint keyPair toAddress transferAmount
    cases h6 : env.getBalance ⟨endpoint, 0, keyPair.publicKey⟩ 0 <;> simp [h6, firstIs,
      Ev.isAddressParse, Ev.isGetBalance]
    cases h7 : env.toNano "0.01" <;> simp [h7, firstIs, Ev.isAddressParse, Ev.isGetBalance]
    rename_i balance fee
    by_cases h8 : balance < transferAmount + fee <;> simp [h8, firstIs, Ev.isAddressParse,
      Ev.isGetBalance]
    cases h9 : env.getSeqno ⟨endpoint, 0, keyPair.publicKey⟩ 0 <;> simp [h9, firstIs,
      Ev.isAddressParse, Ev.isGetBalance]
    rename_i seqno
    cases h10 : env.createTransfer ⟨endpoint, 0, keyPair.publicKey⟩
      ⟨seqno, keyPair.secretKey, [⟨toAddress, transferAmount, commentBody comment, false⟩]⟩ <;>
      simp [h10, firstIs, Ev.isAddressParse, Ev.isGetBalance]
    rename_i transfer
    cases h11 : env.send ⟨endpoint, 0, keyPair.publicKey⟩ transfer <;> simp [h11, firstIs,
      Ev.isAddressParse, Ev.isGetBalance]
  · obtain ⟨extra, hx, hextra⟩ := transferTon_trace env fuel World.init
    rw [hx]
    refine firstIs_append _ _ _ _ ?_ ?_
    swap
    · intro e he
      rcases hextra e he with h | ⟨m, h⟩ <;> subst h <;> rfl
    cases h1 : env.getHttpEndpoint (networkName (isMainnet (env.answers 0))) with
    | error m => simp [transferTonTry, World.init, h1, firstIs, Ev.isAddressParse,
        Ev.isGetBalance]
    | ok endpoint =>
    by_cases h2 : (split (trim (env.answers 1))).length = 24
    swap
    · simp [transferTonTry, World.init, h1, h2, firstIs, Ev.isAddressParse, Ev.isGetBalance]
    cases h3 : env.mnemonicValidate (split (trim (env.answers 1))) with
    | error m => simp [transferTonTry, World.init, h1, h2, h3, firstIs, Ev.isAddressParse,
        Ev.isGetBalance]
    | ok valid =>
    cases valid with
    | false => simp [transferTonTry, World.init, h1, h2, h3, firstIs, Ev.isAddressParse,
        Ev.isGetBalance]
    | true =>
    cases h4 : env.mnemonicToPrivateKey (split (trim (env.answers 1))) with
    | error m => simp [transferTonTry, World.init, h1, h2, h3, h4, firstIs, Ev.isAddressParse,
        Ev.isGetBalance]
    | ok keyPair =>
    cases h5 : env.getBalance ⟨endpoint, 0, keyPair.publicKey⟩ 0 with
    | error m => simp [transferTonTry, World.init, h1, h2, h3, h4, h5, firstIs,
        Ev.isAddressParse, Ev.isGetBalance]
    | ok balance =>
    by_cases h6 : balance = 0
    · simp [transferTonTry, World.init, h1, h2, h3, h4, h5, h6, firstIs, Ev.isAddressParse,
        Ev.isGetBalance]
    · obtain ⟨w1, hw, htr, _⟩ :=
        transferTonTry_reaches env fuel endpoint keyPair balance h1 h2 h3 h4 h5 h6
      obtain ⟨⟨t, ht, _⟩, _⟩ := sat_afterBalance env fuel (isMainnet (env.answers 0))
        ⟨endpoint, 0, keyPair.publicKey⟩ keyPair balance w1
      rw [hw, ht, htr]
      simp [firstIs, Ev.isAddressParse, Ev.isGetBalance]

/-! ## C6 and C7: the confirmation loop -/

/-- A poll that does not end the loop: it raises, or it gives the value the loop started from. -/
theorem pollSeqno_same (env : Env) (wc : WalletContract) (seqno : Nat) (w : World)
    (h : env.getSeqno wc w.seqnoCalls = Except.ok seqno ∨
      ∃ m, env.getSeqno wc w.seqnoCalls = Except.error m) :
    pollSeqno env wc seqno w = (Outcome.ret seqno,
      { w with trace := w.trace ++ [Ev.sleep 2000, Ev.getSeqno wc],
               seqnoCalls := w.seqnoCalls + 1 }) := by
  rcases h with h | ⟨m, h⟩ <;> simp [pollSeqno, h]

theorem pollTrace_succ (wc : WalletContract) (n : Nat) :
    pollTrace wc (n + 1) = pollTrace wc n ++ [Ev.sleep 2000, Ev.getSeqno wc] := by
  induction n with
  | zero => rfl
  | succ n ih =>
    show Ev.sleep 2000 :: Ev.getSeqno wc :: pollTrace wc (n + 1) =
      (Ev.sleep 2000 :: Ev.getSeqno wc :: pollTrace wc n) ++ [Ev.sleep 2000, Ev.getSeqno wc]
    rw [ih]
    simp

/-- While the polls raise or give the value the loop started from, the loop goes on. -/
theorem waitForConfirmation_stay (env : Env) (wc : WalletContract) (seqno : Nat) (k : Nat) :
    ∀ (w : World) (fuel : Nat),
      (∀ i, i < k → env.getSeqno wc (w.seqnoCalls + i) = Except.ok seqno ∨
        ∃ m, env.getSeqno wc (w.seqnoCalls + i) = Except.error m) →
      waitForConfirmation env wc seqno (k + fuel) seqno w =
        waitForConfirmation env wc seqno fuel seqno
          { w with trace := w.trace ++ pollTrace wc k, seqnoCalls := w.seqnoCalls + k } := by
  induction k with
  | zero => intro w fuel _; simp [pollTrace]
  | succ k ih =>
    intro w fuel h
    have h0 := pollSeqno_same env wc seqno w (by simpa using h 0 (Nat.succ_pos k))
    have hstep : waitForConfirmation env wc seqno (k + 1 + fuel) seqno w =
        waitForConfirmation env wc seqno (k + fuel) seqno
          { w with trace := w.trace ++ [Ev.sleep 2000, Ev.getSeqno wc],
                   seqnoCalls := w.seqnoCalls + 1 } := by
      have : k + 1 + fuel = (k + fuel) + 1 := by omega
      rw [this, waitForConfirmation]
      simp [h0]
    rw [hstep, ih]
    · simp [pollTrace, Nat.add_comm, Nat.add_left_comm]
    · intro i hi
      have := h (i + 1) (by omega)
      simpa [Nat.add_comm, Nat.add_left_comm, Nat.add_assoc] using this


/-- C6, as stated, fails: with the sequence number 5 before the submission, a first poll that
gives 4, which is not greater than 5, ends the loop. -/
theorem confirmation_on_lower_value :
    ¬ (4 > 5) ∧
    waitForConfirmation (sampleEnv [] 0 (fun _ => Except.ok 4)) ⟨"https://node", 0, [1]⟩ 5 2 5
        World.init =
      (Outcome.ret (), { trace := [Ev.sleep 2000, Ev.getSeqno ⟨"https://node", 0, [1]⟩],
                         asked := 0, balanceCalls := 0, seqnoCalls := 1 }) := by
  decide

/-- C6, amended: the confirmation loop ends at the first poll that succeeds with a value
different from the sequence number read before the submission, and at no earlier poll.  The
polls before poll `k` raise (the error is swallowed and the value kept) or give that same
number, and poll `k` gives another value.  The fuel is the number of times the condition of the
loop may be evaluated: within `k + 1` evaluations the loop has not ended, and every poll so far
was made; from `k + 2` evaluations on it has ended, after exactly `k + 1` polls. -/
theorem confirmation_at_first_changed_poll (env : Env) (wc : WalletContract) (seqno : Nat)
    (w : World) (k value : Nat)
    (hbefore : ∀ i, i < k → env.getSeqno wc (w.seqnoCalls + i) = Except.ok seqno ∨
      ∃ m, env.getSeqno wc (w.seqnoCalls + i) = Except.error m)
    (hk : env.getSeqno wc (w.seqnoCalls + k) = Except.ok value)
    (hvalue : value ≠ seqno) :
    (∀ fuel, fuel ≤ k + 1 →
      waitForConfirmation env wc seqno fuel seqno w =
        (Outcome.pending, { w with trace := w.trace ++ pollTrace wc fuel,
                                   seqnoCalls := w.seqnoCalls + fuel })) ∧
    (∀ fuel, k + 2 ≤ fuel →
      waitForConfirmation env wc seqno fuel seqno w =
        (Outcome.ret (), { w with trace := w.trace ++ pollTrace wc (k + 1),
                                  seqnoCalls := w.seqnoCalls + (k + 1) })) := by
  constructor
  · intro fuel hfuel
    rcases Nat.lt_or_ge fuel (k + 1) with hlt | hge
    · have := waitForConfirmation_stay env wc seqno fuel w 0
        (fun i hi => hbefore i (by omega))
      simpa [waitForConfirmation] using this
    · have hfk : fuel = k + 1 := by omega
      subst hfk
      have := waitForConfirmation_stay env wc seqno k w 1 hbefore
      rw [this]
      simp [waitForConfirmation, pollSeqno, hk]
      exact ⟨(pollTrace_succ wc k).symm, by omega⟩
  · intro fuel hfuel
    obtain ⟨rest, hrest⟩ : ∃ rest, fuel = k + (rest + 2) := ⟨fuel - (k + 2), by omega⟩
    subst hrest
    rw [waitForConfirmation_stay env wc seqno k w (rest + 2) hbefore]
    simp [waitForConfirmation, pollSeqno, hk, hvalue]
    exact ⟨(pollTrace_succ wc k).symm, by omega⟩

/-- C7, as stated, fails: when every poll gives the sequence number read before the
submission, no number of turns lets the loop end. -/
theorem confirmation_wait_has_no_bound :
    ¬ ∃ bound : Nat,
      (waitForConfirmation (sampleEnv [] 0 (fun _ => Except.ok 5)) ⟨"https://node", 0, [1]⟩ 5
        bound 5 World.init).1 ≠ Outcome.pending := by
  rintro ⟨bound, h⟩
  apply h
  have := waitForConfirmation_stay (sampleEnv [] 0 (fun _ => Except.ok 5))
    ⟨"https://node", 0, [1]⟩ 5 bound World.init 0 (fun _ _ => Or.inl rfl)
  simp only [Nat.add_zero] at this
  rw [this]
  rfl

/-- C7, amended: the confirmation wait has no bound.  When every poll raises or gives the
sequence number read before the submission, the loop is still running after any number of
polls, each of them made; it reports nothing. -/
theorem confirmation_wait_never_ends (env : Env) (wc : WalletContract) (seqno : Nat) (w : World)
    (h : ∀ i, env.getSeqno wc (w.seqnoCalls + i) = Except.ok seqno ∨
      ∃ m, env.getSeqno wc (w.seqnoCalls + i) = Except.error m) :
    ∀ polls, waitForConfirmation env wc seqno polls seqno w =
      (Outcome.pending, { w with trace := w.trace ++ pollTrace wc polls,
                                 seqnoCalls := w.seqnoCalls + polls }) := by
  intro polls
  have := waitForConfirmation_stay env wc seqno polls w 0 (fun i _ => h i)
  simpa [waitForConfirmation] using this

theorem bind_extends {α β : Type} {P : Ev → Prop} {T : Thrown → Prop} (x : Flow α)
    {f : α → Flow β} (hf : ∀ a, Flow.Sat P T (f a)) (w : World) :
    ∃ t, ((x >>= f) w).2.trace = (x w).2.trace ++ t ∧ ∀ e ∈ t, P e := by
  rw [bind_run]
  rcases x w with ⟨o, w1⟩
  cases o with
  | ret a =>
    obtain ⟨⟨t, ht, hP⟩, _⟩ := hf a w1
    exact ⟨t, ht, hP⟩
  | threw e => exact ⟨[], by simp, by simp⟩
  | pending => exact ⟨[], by simp, by simp⟩

theorem askTransfer_head (env : Env) (fuel : Nat) (balance : Int) (w : World) :
    ∃ t, (askTransfer env fuel balance w).2.trace =
      w.trace ++ Ev.log "\n Receiver Wallet " :: t := by
  unfold askTransfer
  have hrest : ∀ u : Unit, Flow.Sat (fun e => e.isPlain = true) (fun e => e.isExternal = true)
      (do
        let receiverAddress ← askReceiver env fuel
        log ("Receiver address: " ++ env.addressToString receiverAddress)
        log "\n Transfer Amount "
        let transferAmount ← askAmount env balance fuel
        pure (receiverAddress, transferAmount)) := by
    intro _
    refine sat_bind (sat_askReceiver _ _) (fun _ => ?_)
    refine sat_bind ?_ (fun _ => ?_)
    · exact sat_log _ rfl
    refine sat_bind ?_ (fun _ => ?_)
    · exact sat_log _ rfl
    exact sat_bind (sat_askAmount _ _ _) (fun _ => sat_pure _)
  obtain ⟨t, ht, _⟩ := bind_extends (log "\n Receiver Wallet ") hrest w
  exact ⟨t, by simpa using ht⟩

/-! ## C10: a wallet without funds -/

/-- C10: in `transferTon`, with a phrase of 24 words that is valid and a key that is derived,
a balance of 0 ends the flow with the error `Sender wallet has no TON to transfer`, which is
printed; the whole trace is the one given, so the receiver is not asked for, no other prompt
follows the two of the network and the phrase, and `getSeqno`, `createTransfer` and `send` are
not called.  With any other balance this error is not raised and the flow goes on to the
receiver. -/
theorem zero_balance_fails_fast (env : Env) (fuel : Nat) (endpoint : String)
    (keyPair : KeyPair)
    (h1 : env.getHttpEndpoint (networkName (isMainnet (env.answers 0))) = Except.ok endpoint)
    (h2 : (split (trim (env.answers 1))).length = 24)
    (h3 : env.mnemonicValidate (split (trim (env.answers 1))) = Except.ok true)
    (h4 : env.mnemonicToPrivateKey (split (trim (env.answers 1))) = Except.ok keyPair) :
    (env.getBalance ⟨endpoint, 0, keyPair.publicKey⟩ 0 = Except.ok 0 →
      (transferTonTry env fuel World.init).1 = Outcome.threw Thrown.noTon ∧
      transferTon env fuel World.init =
        (Outcome.ret (),
          { trace := [Ev.log " TON Transfer Tool \n",
              Ev.question "Choose network (mainnet/testnet) [default: testnet]: "
                (env.answers 0),
              Ev.getHttpEndpoint (networkName (isMainnet (env.answers 0))),
              Ev.log "\n Sender Wallet ",
              Ev.question "Enter sender\x27s 24-word mnemonic phrase (space-separated): "
                (env.answers 1),
              Ev.mnemonicValidate (split (trim (env.answers 1))),
              Ev.mnemonicToPrivateKey (split (trim (env.answers 1))),
              Ev.log ("Sender address: " ++
                env.addressToString (env.walletAddress ⟨endpoint, 0, keyPair.publicKey⟩)),
              Ev.getBalance ⟨endpoint, 0, keyPair.publicKey⟩,
              Ev.log ("Current balance: " ++ env.fromNano 0 ++ " TON"),
              Ev.logError "Error: Sender wallet has no TON to transfer",
              Ev.rlClose],
            asked := 2, balanceCalls := 1, seqnoCalls := 0 })) ∧
    (∀ balance, balance ≠ 0 →
      env.getBalance ⟨endpoint, 0, keyPair.publicKey⟩ 0 = Except.ok balance →
      (transferTonTry env fuel World.init).1 ≠ Outcome.threw Thrown.noTon ∧
      ∃ rest, (transferTon env fuel World.init).2.trace =
        [Ev.log " TON Transfer Tool \n",
          Ev.question "Choose network (mainnet/testnet) [default: testnet]: " (env.answers 0),
          Ev.getHttpEndpoint (networkName (isMainnet (env.answers 0))),
          Ev.log "\n Sender Wallet ",
          Ev.question "Enter sender\x27s 24-word mnemonic phrase (space-separated): "
            (env.answers 1),
          Ev.mnemonicValidate (split (trim (env.answers 1))),
          Ev.mnemonicToPrivateKey (split (trim (env.answers 1))),
          Ev.log ("Sender address: " ++
            env.addressToString (env.walletAddress ⟨endpoint, 0, keyPair.publicKey⟩)),
          Ev.getBalance ⟨endpoint, 0, keyPair.publicKey⟩,
          Ev.log ("Current balance: " ++ env.fromNano balance ++ " TON"),
          Ev.log "\n Receiver Wallet "] ++ rest) := by
  constructor
  · intro h5
    constructor
    · simp [transferTonTry, World.init, h1, h2, h3, h4, h5]
    · simp [transferTon, transferTonTry, World.init, h1, h2, h3, h4, h5, readMessage,
        Thrown.message]
  · intro balance h6 h5
    obtain ⟨w1, hw, htr, _⟩ :=
      transferTonTry_reaches env fuel endpoint keyPair balance h1 h2 h3 h4 h5 h6
    constructor
    · intro hc
      have := (sat_afterBalance env fuel (isMainnet (env.answers 0))
        ⟨endpoint, 0, keyPair.publicKey⟩ keyPair balance w1).2 Thrown.noTon (by rw [← hw]; exact hc)
      simp [Thrown.isExternal] at this
    · obtain ⟨extra, hx, _⟩ := transferTon_trace env fuel World.init
      obtain ⟨t1, ht1⟩ := askTransfer_head env fuel balance w1
      obtain ⟨t2, ht2, _⟩ := bind_extends (askTransfer env fuel balance)
        (fun transfer => sat_confirmAndSend env fuel (isMainnet (env.answers 0))
          ⟨endpoint, 0, keyPair.publicKey⟩ keyPair transfer.1 transfer.2) w1
      refine ⟨t1 ++ t2 ++ extra, ?_⟩
      rw [hx, hw, ht2, ht1, htr]
      simp

/-! ## C5: the body of the message -/

theorem commentOk_of_isPlain (c : String) (e : Ev) (h : e.isPlain = true) :
    e.commentOk c = true := by
  cases e <;> simp_all [Ev.isPlain, Ev.commentOk]

theorem agrees_of_sat {α : Type} (T : Thrown → Prop) {x : Flow α}
    (hx : Flow.Sat (fun e => e.isPlain = true) T x) : Flow.Agrees x := by
  intro w
  obtain ⟨⟨t, ht, hP⟩, _⟩ := hx w
  exact ⟨"", t, ht, fun e he => commentOk_of_isPlain _ e (hP e he)⟩

theorem agrees_bind {α β : Type} (T : Thrown → Prop) {x : Flow α} {f : α → Flow β}
    (hx : Flow.Sat (fun e => e.isPlain = true) T x) (hf : ∀ a, Flow.Agrees (f a)) :
    Flow.Agrees (x >>= f) := by
  intro w
  obtain ⟨⟨t, ht, hP⟩, _⟩ := hx w
  rw [bind_run]
  rcases hxw : x w with ⟨o, w1⟩
  rw [hxw] at ht
  cases o with
  | ret a =>
    obtain ⟨c, t2, ht2, hP2⟩ := hf a w1
    refine ⟨c, t ++ t2, ?_, ?_⟩
    · simp only [ht2]; simp at ht; rw [ht, List.append_assoc]
    · intro e he
      rcases List.mem_append.mp he with h | h
      · exact commentOk_of_isPlain _ e (hP e h)
      · exact hP2 e h
  | threw e => exact ⟨"", t, ht, fun e he => commentOk_of_isPlain _ e (hP e he)⟩
  | pending => exact ⟨"", t, ht, fun e he => commentOk_of_isPlain _ e (hP e he)⟩

theorem agrees_then {α : Type} {x : Flow α} (hx : Flow.Agrees x)
    (w : World) (extra : List Ev) (hextra : ∀ e ∈ extra, e.isPlain = true) :
    ∃ c t, (x w).2.trace ++ extra = w.trace ++ t ∧ ∀ e ∈ t, e.commentOk c = true := by
  obtain ⟨c, t, ht, hP⟩ := hx w
  refine ⟨c, t ++ extra, by rw [ht, List.append_assoc], ?_⟩
  intro e he
  rcases List.mem_append.mp he with h | h
  · exact hP e h
  · exact commentOk_of_isPlain _ e (hextra e h)

theorem agrees_confirmAndSend (env : Env) (fuel : Nat) (mainnet : Bool) (wc : WalletContract)
    (keyPair : KeyPair) (receiverAddress : Address) (transferAmount : Int) :
    Flow.Agrees (confirmAndSend env fuel mainnet wc keyPair receiverAddress transferAmount) := by
  intro w
  obtain ⟨⟨t, ht, hP⟩, _⟩ := sat_summaryAndSend env fuel mainnet wc keyPair receiverAddress
    transferAmount (env.answers w.asked)
    { w with trace := w.trace ++ [Ev.question commentPrompt (env.answers w.asked)],
             asked := w.asked + 1 }
  refine ⟨env.answers w.asked, Ev.question commentPrompt (env.answers w.asked) :: t, ?_, ?_⟩
  · simp only [confirmAndSend, bind_run, question_run]
    rw [ht]
    simp
  · intro e he
    rcases List.mem_cons.mp he with h | h
    · subst h; simp [Ev.commentOk]
    · exact hP e h

theorem agrees_transferTonTry (env : Env) (fuel : Nat) :
    Flow.Agrees (transferTonTry env fuel) := by
  unfold transferTonTry
  refine agrees_bind (fun _ => True) (sat_log _ rfl) (fun _ => ?_)
  refine agrees_bind (fun _ => True) (sat_question _ _ (fun _ => rfl)) (fun network => ?_)
  refine agrees_bind (fun _ => True) (sat_call _ _ rfl (fun _ => trivial)) (fun endpoint => ?_)
  refine agrees_bind (fun _ => True) (sat_log _ rfl) (fun _ => ?_)
  refine agrees_bind (fun _ => True) (sat_question _ _ (fun _ => rfl)) (fun mnemonicInput => ?_)
  simp only []
  split
  · exact agrees_of_sat (fun _ => True) (sat_raise _ trivial)
  refine agrees_bind (fun _ => True) (sat_call _ _ rfl (fun _ => trivial)) (fun valid => ?_)
  split
  · exact agrees_of_sat (fun _ => True) (sat_raise _ trivial)
  refine agrees_bind (fun _ => True) (sat_call _ _ rfl (fun _ => trivial)) (fun keyPair => ?_)
  refine agrees_bind (fun _ => True) (sat_log _ rfl) (fun _ => ?_)
  refine agrees_bind (fun _ => True) (sat_getBalance _ _ rfl (fun _ => trivial))
    (fun balance => ?_)
  refine agrees_bind (fun _ => True) (sat_log _ rfl) (fun _ => ?_)
  split
  · exact agrees_of_sat (fun _ => True) (sat_raise _ trivial)
  exact agrees_bind _ (sat_askTransfer _ _ _) (fun _ => agrees_confirmAndSend _ _ _ _ _ _ _)

theorem agrees_transferTon (env : Env) (fuel : Nat) :
    ∃ c, ∀ e ∈ (transferTon env fuel World.init).2.trace, e.commentOk c = true := by
  obtain ⟨extra, hx, hextra⟩ := transferTon_trace env fuel World.init
  obtain ⟨c, t, ht, hP⟩ := agrees_then (agrees_transferTonTry env fuel) World.init extra
    (by
      intro e he
      rcases hextra e he with h | ⟨m, h⟩ <;> subst h <;> rfl)
  refine ⟨c, ?_⟩
  rw [hx, ht]
  simpa [World.init] using hP

theorem sat_transferTonDirectTry (env : Env) (mnemonic receiverAddress : String)
    (amount : Amount) (comment network : String) :
    Flow.Sat (fun e => e.commentOk comment = true) (fun _ => True)
      (transferTonDirectTry env mnemonic receiverAddress amount comment network) := by
  unfold transferTonDirectTry
  refine sat_bind (sat_call _ _ rfl (fun _ => trivial)) (fun endpoint => ?_)
  refine sat_bind (sat_call _ _ rfl (fun _ => trivial)) (fun valid => ?_)
  split
  · exact sat_raise _ trivial
  refine sat_bind (sat_call _ _ rfl (fun _ => trivial)) (fun keyPair => ?_)
  refine sat_bind (sat_call _ _ rfl (fun _ => trivial)) (fun toAddress => ?_)
  refine sat_bind (sat_call _ _ rfl (fun _ => trivial)) (fun transferAmount => ?_)
  refine sat_bind (sat_getBalance _ _ rfl (fun _ => trivial)) (fun balance => ?_)
  refine sat_bind (sat_call _ _ rfl (fun _ => trivial)) (fun estimatedFee => ?_)
  split
  · exact sat_raise _ trivial
  exact sat_mono (sat_submitDirect _ _ _ _ _ _) (fun _ h => h) (fun _ _ => trivial)

/-- C5: the message handed to `createTransfer` by either entry point carries, as its body, the
cell that stores the unsigned integer 0 on 32 bits and then the text of the comment, when the
comment is not empty, and no body (`null`) when it is empty; in `transferTon` the comment is
the line typed at the prompt for it.  The message is not bounceable.  For the comment `hello`
the body is that cell with `hello`. -/
theorem comment_payload_encoding (env : Env) (mnemonic receiverAddress : String)
    (amount : Amount) (comment network : String) (fuel : Nat) :
    (∀ wc args, Ev.createTransfer wc args ∈ (transferTonDirect env mnemonic receiverAddress
        amount comment network World.init).2.trace →
      args.messages.map (fun m => (m.body, m.bounce)) =
        [(if comment = "" then none
          else some ⟨[StoreOp.storeUint 0 32, StoreOp.storeStringTail comment]⟩, false)]) ∧
    (∀ c wc args, Ev.question commentPrompt c ∈ (transferTon env fuel World.init).2.trace →
      Ev.createTransfer wc args ∈ (transferTon env fuel World.init).2.trace →
      args.messages.map (fun m => (m.body, m.bounce)) =
        [(if c = "" then none
          else some ⟨[StoreOp.storeUint 0 32, StoreOp.storeStringTail c]⟩, false)]) ∧
    commentBody "hello" =
      some ⟨[StoreOp.storeUint 0 32, StoreOp.storeStringTail "hello"]⟩ ∧
    commentBody "" = none := by
  refine ⟨?_, ?_, by decide, by decide⟩
  · intro wc args h
    rw [transferTonDirect_world] at h
    obtain ⟨⟨t, ht, hP⟩, _⟩ := sat_transferTonDirectTry env mnemonic receiverAddress amount
      comment network World.init
    rw [ht] at h
    have := hP _ (by simpa [World.init] using h)
    simpa [Ev.commentOk, commentBody] using this
  · intro c wc args hq hc
    obtain ⟨c1, h1⟩ := agrees_transferTon env fuel
    have hq1 := h1 _ hq
    have hc1 := h1 _ hc
    simp [Ev.commentOk] at hq1
    subst hq1
    simpa [Ev.commentOk, commentBody] using hc1

/-! ## C2 and C4: checks that only `transferTon` makes -/

/-- In `transferTon` a phrase whose word count is not 24 is turned down before the validator,
the key derivation and the ledger are reached (lines 51-53). -/
theorem transferTon_rejects_word_count (env : Env) (fuel : Nat) (endpoint : String)
    (h1 : env.getHttpEndpoint (networkName (isMainnet (env.answers 0))) = Except.ok endpoint)
    (h2 : (split (trim (env.answers 1))).length ≠ 24) :
    (transferTonTry env fuel World.init).1 = Outcome.threw Thrown.mnemonicWordCount ∧
    transferTon env fuel World.init =
      (Outcome.ret (),
        { trace := [Ev.log " TON Transfer Tool \n",
            Ev.question "Choose network (mainnet/testnet) [default: testnet]: " (env.answers 0),
            Ev.getHttpEndpoint (networkName (isMainnet (env.answers 0))),
            Ev.log "\n Sender Wallet ",
            Ev.question "Enter sender\x27s 24-word mnemonic phrase (space-separated): "
              (env.answers 1),
            Ev.logError "Error: Mnemonic must contain exactly 24 words",
            Ev.rlClose],
          asked := 2, balanceCalls := 0, seqnoCalls := 0 }) := by
  constructor
  · simp [transferTonTry, World.init, h1, h2]
  · simp [transferTon, transferTonTry, World.init, h1, h2, readMessage, Thrown.message]

set_option maxRecDepth 100000 in
/-- C2 fails in `transferTonDirect`, which does not count the words: with a phrase of 23 words
that the validator accepts, the key is derived, the ledger is called and the transfer is
sent. -/
theorem transferTonDirect_derives_key_from_short_phrase :
    (split shortPhrase).length = 23 ∧
    transferTonDirect (sampleEnv [] 5000000000 (fun _ => Except.ok 5)) shortPhrase "EQ"
        (Amount.text "1") "" "testnet" World.init =
      (Outcome.ret { success := true, message := some "Transaction sent successfully",
                     txHash := some "ab", error := none },
        { trace := [Ev.getHttpEndpoint "testnet",
            Ev.mnemonicValidate (split shortPhrase),
            Ev.mnemonicToPrivateKey (split shortPhrase),
            Ev.addressParse "EQ", Ev.toNano "1",
            Ev.getBalance ⟨"https://node", 0, [1]⟩, Ev.toNano "0.01",
            Ev.getSeqno ⟨"https://node", 0, [1]⟩,
            Ev.createTransfer ⟨"https://node", 0, [1]⟩
              ⟨5, [2], [⟨⟨0, [7]⟩, 1000000000, none, false⟩]⟩,
            Ev.send ⟨"https://node", 0, [1]⟩ ⟨"ab"⟩],
          asked := 0, balanceCalls := 1, seqnoCalls := 1 }) := by
  decide!

/-- In `transferTon` an amount that is not a number, or not positive, is turned down before it
is converted (lines 103-106). -/
theorem checkAmount_rejects_nonpositive (env : Env) (balance : Int) (amountInput : String)
    (w : World)
    (h : (env.parseFloat amountInput).isNaN = true ∨ (env.parseFloat amountInput).leZero = true) :
    checkAmount env balance amountInput w =
      (Outcome.ret none,
        { w with trace := w.trace ++ [Ev.log "Invalid amount. Please enter a positive number."] })
    := by
  rcases h with h | h <;> simp [checkAmount, h]

set_option maxRecDepth 100000 in
/-- C4 fails in `transferTonDirect`, which does not look at the sign of the amount: with the
amount 0 and a balance that covers the margin, a message whose value is 0 is signed and
sent. -/
theorem transferTonDirect_sends_zero_amount :
    transferTonDirect (sampleEnv [] 5000000000 (fun _ => Except.ok 5)) samplePhrase "EQ"
        (Amount.number (JsNumber.finite 0)) "" "testnet" World.init =
      (Outcome.ret { success := true, message := some "Transaction sent successfully",
                     txHash := some "ab", error := none },
        { trace := [Ev.getHttpEndpoint "testnet",
            Ev.mnemonicValidate (split samplePhrase),
            Ev.mnemonicToPrivateKey (split samplePhrase),
            Ev.addressParse "EQ", Ev.toNano "0",
            Ev.getBalance ⟨"https://node", 0, [1]⟩, Ev.toNano "0.01",
            Ev.getSeqno ⟨"https://node", 0, [1]⟩,
            Ev.createTransfer ⟨"https://node", 0, [1]⟩
              ⟨5, [2], [⟨⟨0, [7]⟩, 0, none, false⟩]⟩,
            Ev.send ⟨"https://node", 0, [1]⟩ ⟨"ab"⟩],
          asked := 0, balanceCalls := 1, seqnoCalls := 1 }) ∧
    sentValues (transferTonDirect (sampleEnv [] 5000000000 (fun _ => Except.ok 5)) samplePhrase
      "EQ" (Amount.number (JsNumber.finite 0)) "" "testnet" World.init).2.trace = [0] := by
  decide!

/-! ## The statements at the sample collaborators -/

/-- The statement of C1 at the scenario of the claim: a balance of 1,000,000,000 and an amount of
2,000,000,000 are rejected by both entry points, and a balance of exactly the amount plus the
margin is accepted. -/
theorem affordability_check_exact_witness :
    (transferTonDirect (sampleEnv ["2"] 1000000000 (fun _ => Except.ok 5)) samplePhrase "EQ"
        (Amount.text "2") "" "testnet" World.init).1 =
      Outcome.ret { success := false, message := none, txHash := none,
                    error := some "Insufficient balance. Available: 1 TON" } ∧
    (checkAmount (sampleEnv ["2"] 1000000000 (fun _ => Except.ok 5)) 1000000000 "2"
        World.init).1 = Outcome.ret none ∧
    (checkAmount (sampleEnv ["2"] 2010000000 (fun _ => Except.ok 5)) 2010000000 "2"
        World.init).1 = Outcome.ret (some 2000000000) :=
  ⟨(affordability_check_exact (sampleEnv ["2"] 1000000000 (fun _ => Except.ok 5)) samplePhrase
      "EQ" (Amount.text "2") "" "testnet" "https://node" { publicKey := [1], secretKey := [2] }
      { workchain := 0, hash := [7] } 2000000000 1000000000 "2" World.init
      rfl rfl rfl rfl rfl rfl rfl rfl rfl rfl rfl).2.2.1 (by decide),
   (affordability_check_exact (sampleEnv ["2"] 1000000000 (fun _ => Except.ok 5)) samplePhrase
      "EQ" (Amount.text "2") "" "testnet" "https://node" { publicKey := [1], secretKey := [2] }
      { workchain := 0, hash := [7] } 2000000000 1000000000 "2" World.init
      rfl rfl rfl rfl rfl rfl rfl rfl rfl rfl rfl).2.2.2.1.mpr (by decide),
   (affordability_check_exact (sampleEnv ["2"] 2010000000 (fun _ => Except.ok 5)) samplePhrase
      "EQ" (Amount.text "2") "" "testnet" "https://node" { publicKey := [1], secretKey := [2] }
      { workchain := 0, hash := [7] } 2000000000 2010000000 "2" World.init
      rfl rfl rfl rfl rfl rfl rfl rfl rfl rfl rfl).2.2.2.2.1.mpr (by decide)⟩


set_option maxRecDepth 100000 in
/-- The statement of C5 at the sample collaborators: with the comment `hello`,
`transferTonDirect` hands `createTransfer` a message whose body is the cell of `hello`, and so
does `transferTon` in a session where `hello` is typed at the prompt for the comment. -/
theorem comment_payload_encoding_witness :
    Ev.createTransfer ⟨"https://node", 0, [1]⟩
        ⟨5, [2], [⟨⟨0, [7]⟩, 1000000000,
          some ⟨[StoreOp.storeUint 0 32, StoreOp.storeStringTail "hello"]⟩, false⟩]⟩ ∈
      (transferTonDirect (sampleEnv [] 5000000000 (fun _ => Except.ok 5)) samplePhrase "EQ"
        (Amount.text "1") "hello" "testnet" World.init).2.trace ∧
    [(some (Cell.mk [StoreOp.storeUint 0 32, StoreOp.storeStringTail "hello"]), false)] =
      [(if "hello" = "" then none
        else some ⟨[StoreOp.storeUint 0 32, StoreOp.storeStringTail "hello"]⟩, false)] ∧
    Ev.question commentPrompt "hello" ∈
      (transferTon (sampleEnv helloSession 5000000000
        (fun k => if k = 0 then Except.ok 5 else Except.ok 6)) 2 World.init).2.trace ∧
    Ev.createTransfer ⟨"https://node", 0, [1]⟩
        ⟨5, [2], [⟨⟨0, [7]⟩, 1000000000,
          some ⟨[StoreOp.storeUint 0 32, StoreOp.storeStringTail "hello"]⟩, false⟩]⟩ ∈
      (transferTon (sampleEnv helloSession 5000000000
        (fun k => if k = 0 then Except.ok 5 else Except.ok 6)) 2 World.init).2.trace ∧
    [(some (Cell.mk [StoreOp.storeUint 0 32, StoreOp.storeStringTail "hello"]), false)] =
      [(if "hello" = "" then none
        else some ⟨[StoreOp.storeUint 0 32, StoreOp.storeStringTail "hello"]⟩, false)] :=
  ⟨by decide!,
   (comment_payload_encoding (sampleEnv [] 5000000000 (fun _ => Except.ok 5)) samplePhrase "EQ"
      (Amount.text "1") "hello" "testnet" 0).1 ⟨"https://node", 0, [1]⟩
      ⟨5, [2], [⟨⟨0, [7]⟩, 1000000000,
        some ⟨[StoreOp.storeUint 0 32, StoreOp.storeStringTail "hello"]⟩, false⟩]⟩
      (by decide!),
   by decide!, by decide!,
   (comment_payload_encoding (sampleEnv helloSession 5000000000
      (fun k => if k = 0 then Except.ok 5 else Except.ok 6)) samplePhrase "EQ"
      (Amount.text "1") "hello" "testnet" 2).2.1 "hello" ⟨"https://node", 0, [1]⟩
      ⟨5, [2], [⟨⟨0, [7]⟩, 1000000000,
        some ⟨[StoreOp.storeUint 0 32, StoreOp.storeStringTail "hello"]⟩, false⟩]⟩
      (by decide!) (by decide!)⟩

/-- The statement of C6 at the example of the claim: the sequence number is 5 and the polls
give 5, an error and 6; the loop ends at the third poll. -/
theorem confirmation_at_first_changed_poll_witness :
    waitForConfirmation
        (sampleEnv [] 0 (fun k =>
          if k = 0 then Except.ok 5 else if k = 1 then Except.error (Raised.error "rpc") else Except.ok 6))
        ⟨"https://node", 0, [1]⟩ 5 4 5 World.init =
      (Outcome.ret (),
        { trace := [Ev.sleep 2000, Ev.getSeqno ⟨"https://node", 0, [1]⟩,
                    Ev.sleep 2000, Ev.getSeqno ⟨"https://node", 0, [1]⟩,
                    Ev.sleep 2000, Ev.getSeqno ⟨"https://node", 0, [1]⟩],
          asked := 0, balanceCalls := 0, seqnoCalls := 3 }) :=
  (confirmation_at_first_changed_poll
    (sampleEnv [] 0 (fun k =>
      if k = 0 then Except.ok 5 else if k = 1 then Except.error (Raised.error "rpc") else Except.ok 6))
    ⟨"https://node", 0, [1]⟩ 5 World.init 2 6
    (fun i hi => by
      interval_cases i
      · exact Or.inl rfl
      · exact Or.inr ⟨Raised.error "rpc", rfl⟩)
    rfl (by decide)).2 4 (by decide)

/-- The statement of C7 at polls that all raise: after two polls the loop is still running. -/
theorem confirmation_wait_never_ends_witness :
    waitForConfirmation (sampleEnv [] 0 (fun _ => Except.error (Raised.error "rpc")))
        ⟨"https://node", 0, [1]⟩ 5 2 5 World.init =
      (Outcome.pending,
        { trace := [Ev.sleep 2000, Ev.getSeqno ⟨"https://node", 0, [1]⟩,
                    Ev.sleep 2000, Ev.getSeqno ⟨"https://node", 0, [1]⟩],
          asked := 0, balanceCalls := 0, seqnoCalls := 2 }) :=
  confirmation_wait_never_ends (sampleEnv [] 0 (fun _ => Except.error (Raised.error "rpc")))
    ⟨"https://node", 0, [1]⟩ 5 World.init (fun _ => Or.inr ⟨Raised.error "rpc", rfl⟩) 2

/-- The statement of C8 at a destination that `Address.parse` rejects: nothing is signed or
sent. -/
theorem validation_precedes_signing_witness :
    (∃ m, (sampleEnv [] 5000000000 (fun _ => Except.ok 5)).addressParse "nowhere" =
      Except.error m) ∧
    ∀ e ∈ (transferTonDirect (sampleEnv [] 5000000000 (fun _ => Except.ok 5)) samplePhrase
      "nowhere" (Amount.text "1") "" "testnet" World.init).2.trace, e.isSubmission = false :=
  ⟨⟨Raised.error "Unknown address type", rfl⟩,
   (validation_precedes_signing (sampleEnv [] 5000000000 (fun _ => Except.ok 5)) samplePhrase
      "nowhere" (Amount.text "1") "" "testnet").1
      (Or.inr (Or.inl ⟨Raised.error "Unknown address type", rfl⟩))⟩

set_option maxRecDepth 100000 in
/-- The statement of C10 at the sample session: with the balance 0 the error is raised, with
five TON it is not. -/
theorem zero_balance_fails_fast_witness :
    (transferTonTry (sampleEnv sampleSession 0 (fun _ => Except.ok 5)) 1 World.init).1 =
      Outcome.threw Thrown.noTon ∧
    (transferTonTry (sampleEnv sampleSession 5000000000 (fun _ => Except.ok 5)) 1
      World.init).1 ≠ Outcome.threw Thrown.noTon :=
  ⟨((zero_balance_fails_fast (sampleEnv sampleSession 0 (fun _ => Except.ok 5)) 1
      "https://node" ⟨[1], [2]⟩ rfl (by decide!) rfl rfl).1 rfl).1,
   ((zero_balance_fails_fast (sampleEnv sampleSession 5000000000 (fun _ => Except.ok 5)) 1
      "https://node" ⟨[1], [2]⟩ rfl (by decide!) rfl rfl).2 5000000000 (by decide) rfl).1⟩

end TonTransfer
